import Mathlib

/-!
# Verification of the YepSVG core rendering engine

A shallow embedding, in Lean 4, of the YepSVG SVG-to-raster engine
(`Sources/YepSVGCore`).  Pure C++ functions become Lean functions over exact
rationals (IEEE doubles and floats are modelled as `Rat`; the numeric paths
relevant to the stated properties involve no transcendental operations, and
where the source does call `sin`/`cos`/`tan`/`atan2`/`sqrt` those operations
are taken as parameters, so the theorems quantify over all implementations
of them).  `std::string` becomes `List Char`; `std::map` becomes an
association list with `std::map` lookup/insert semantics; the CoreGraphics
raster backend - an external collaborator of the core - is modelled as an
event trace plus an oracle that turns traces into pixel surfaces.

Definitions follow the C++ sources function by function; the source file and
function names are named in the doc comments.
-/

/-- `List Char` stands for `std::string`. -/
abbrev Str := List Char

/-- C locale `isspace` (space, tab, newline, vertical tab, form feed,
carriage return). -/
def isCppSpace (c : Char) : Bool :=
  c = ' ' || c = '\t' || c = '\n' || c = '\x0b' || c = '\x0c' || c = '\r'

/-- The whitespace set `" \t\r\n"` used by the repository's `Trim` helpers. -/
def isTrimSpace (c : Char) : Bool :=
  c = ' ' || c = '\t' || c = '\r' || c = '\n'

/-- C locale `tolower` on ASCII. -/
def cToLower (c : Char) : Char :=
  if 'A' ≤ c ∧ c ≤ 'Z' then Char.ofNat (c.toNat + 32) else c

/-- C locale `isalpha` on ASCII. -/
def isCppAlpha (c : Char) : Bool :=
  ('a' ≤ c && c ≤ 'z') || ('A' ≤ c && c ≤ 'Z')

/-- ASCII decimal digit test (`isdigit`). -/
def isDig (c : Char) : Bool := '0' ≤ c && c ≤ '9'

/-- `Lower` (PaintEngine.cpp, StyleResolver.cpp, GeometryEngine.cpp):
lowercase every character. -/
def lowerStr (s : Str) : Str := s.map cToLower

/-- `Trim` (PaintEngine.cpp and friends): strip the characters of
`" \t\r\n"` from both ends. -/
def trimStr (s : Str) : Str :=
  ((s.dropWhile isTrimSpace).reverse.dropWhile isTrimSpace).reverse

/-- Numeric value of a digit string (most significant digit first). -/
def digitsVal (s : Str) : ℕ :=
  s.foldl (fun acc c => acc * 10 + (c.toNat - '0'.toNat)) 0

/-- Sign and body of an exponent: an optional `+`/`-` ahead of the digits. -/
def expSignBody (r : Str) : ℤ × Str :=
  match r with
  | [] => (1, [])
  | c2 :: r2 =>
      if c2 = '+' then (1, r2)
      else if c2 = '-' then (-1, r2)
      else (1, c2 :: r2)

/-- Exponent part of a decimal literal: `e`/`E`, an optional sign and at
least one digit.  When the digits are missing the exponent is not consumed,
matching `strtod`. -/
def parseExpPart (s : Str) : ℤ × Str :=
  match s with
  | [] => (0, [])
  | c :: r =>
      if c = 'e' ∨ c = 'E' then
        let signBody := expSignBody r
        let ds := signBody.2.takeWhile isDig
        let rest := signBody.2.dropWhile isDig
        if ds.isEmpty then (0, c :: r)
        else (signBody.1 * (digitsVal ds : ℤ), rest)
      else (0, c :: r)

/-- Leading sign of a decimal literal. -/
def splitSign (s : Str) : ℚ × Str :=
  match s with
  | [] => (1, [])
  | c :: r =>
      if c = '+' then (1, r)
      else if c = '-' then (-1, r)
      else (1, c :: r)

/-- Fractional part: a `.` followed by a (possibly empty) run of digits. -/
def splitFrac (s : Str) : Str × Str :=
  match s with
  | [] => ([], [])
  | c :: r =>
      if c = '.' then (r.takeWhile isDig, r.dropWhile isDig)
      else ([], c :: r)

/-- Core of C `strtod` on the decimal-literal subset the engine's documents
use: optional sign, digits with an optional fraction, optional exponent.
Returns the value and the unconsumed suffix, or `none` when no conversion is
possible (the `end_ptr == start` test at the C++ call sites).  The libc
extensions (hex literals, `inf`, `nan`) are outside the modelled subset. -/
def strtodCore (s : Str) : Option (ℚ × Str) :=
  let sr := splitSign s
  let ip := sr.2.takeWhile isDig
  let s2 := sr.2.dropWhile isDig
  let fr := splitFrac s2
  if ip.isEmpty ∧ fr.1.isEmpty then
    none
  else
    let mant : ℚ := (digitsVal (ip ++ fr.1) : ℚ) / ((10 : ℚ) ^ fr.1.length)
    let er := parseExpPart fr.2
    some (sr.1 * mant * (10 : ℚ) ^ er.1, er.2)

/-- `strtod`: skip leading C whitespace, then convert. -/
def strtodStr (s : Str) : Option (ℚ × Str) :=
  strtodCore (s.dropWhile isCppSpace)

theorem dropWhile_length_le (p : Char → Bool) (s : Str) :
    (s.dropWhile p).length ≤ s.length := by
  induction s with
  | nil => simp [List.dropWhile]
  | cons c cs ih =>
      by_cases h : p c
      · simp [List.dropWhile, h]; omega
      · simp [List.dropWhile, h]

theorem expSignBody_length_le (r : Str) :
    (expSignBody r).2.length ≤ r.length := by
  match r with
  | [] => simp [expSignBody]
  | c2 :: r2 =>
      simp only [expSignBody]
      by_cases h2 : c2 = '+'
      · rw [if_pos h2]; simp
      · rw [if_neg h2]
        by_cases h3 : c2 = '-'
        · rw [if_pos h3]; simp
        · rw [if_neg h3]

theorem parseExpPart_length_le (s : Str) :
    (parseExpPart s).2.length ≤ s.length := by
  match s with
  | [] => simp [parseExpPart]
  | c :: r =>
      unfold parseExpPart
      by_cases hc : c = 'e' ∨ c = 'E'
      · simp only [hc, if_true]
        by_cases hds : ((expSignBody r).2.takeWhile isDig).isEmpty
        · simp [hds]
        · simp only [hds, Bool.false_eq_true, if_false]
          have h1 := dropWhile_length_le isDig (expSignBody r).2
          have h2 := expSignBody_length_le r
          simp only [List.length_cons]
          omega
      · simp [hc]

theorem takeWhile_ne_nil_dropWhile_lt (p : Char → Bool) (s : Str)
    (h : (s.takeWhile p).isEmpty = false) :
    (s.dropWhile p).length < s.length := by
  match s with
  | [] => simp [List.takeWhile] at h
  | c :: cs =>
      by_cases hc : p c
      · simp only [List.dropWhile, hc, List.length_cons]
        have := dropWhile_length_le p cs
        omega
      · simp [List.takeWhile, hc] at h

theorem splitSign_length_le (s : Str) :
    (splitSign s).2.length ≤ s.length := by
  match s with
  | [] => simp [splitSign]
  | c :: r =>
      simp only [splitSign]
      by_cases h2 : c = '+'
      · rw [if_pos h2]; simp
      · rw [if_neg h2]
        by_cases h3 : c = '-'
        · rw [if_pos h3]; simp
        · rw [if_neg h3]

theorem splitFrac_length_le (s : Str) :
    (splitFrac s).2.length ≤ s.length := by
  match s with
  | [] => simp [splitFrac]
  | c :: r =>
      simp only [splitFrac]
      by_cases h2 : c = '.'
      · rw [if_pos h2]
        have := dropWhile_length_le isDig r
        simp
        omega
      · rw [if_neg h2]

theorem splitFrac_nonempty_length_lt (s : Str)
    (h : ((splitFrac s).1).isEmpty = false) :
    (splitFrac s).2.length < s.length := by
  match s with
  | [] => simp [splitFrac] at h
  | c :: r =>
      by_cases h2 : c = '.'
      · simp only [splitFrac, if_pos h2] at h ⊢
        have := takeWhile_ne_nil_dropWhile_lt isDig r h
        simp
        omega
      · simp only [splitFrac, if_neg h2] at h
        simp at h

/-- A successful `strtod` consumes at least one character. -/
theorem strtodCore_length_lt (s : Str) (v : ℚ) (rest : Str)
    (h : strtodCore s = some (v, rest)) : rest.length < s.length := by
  unfold strtodCore at h
  by_cases hg : ((splitSign s).2.takeWhile isDig).isEmpty = true ∧
      ((splitFrac ((splitSign s).2.dropWhile isDig)).1).isEmpty = true
  · simp only [hg, and_self, if_true] at h
    exact absurd h (by simp)
  · simp only [if_neg hg] at h
    have hrest : rest = (parseExpPart (splitFrac ((splitSign s).2.dropWhile isDig)).2).2 := by
      have := h
      simp only [Option.some.injEq, Prod.mk.injEq] at this
      exact this.2.symm
    have hlen : rest.length =
        (parseExpPart (splitFrac ((splitSign s).2.dropWhile isDig)).2).2.length := by
      rw [hrest]
    have h1 := parseExpPart_length_le (splitFrac ((splitSign s).2.dropWhile isDig)).2
    have h2 := splitSign_length_le s
    by_cases hip : ((splitSign s).2.takeWhile isDig).isEmpty = true
    · -- integral part empty: the fraction must be nonempty
      have hfp : ((splitFrac ((splitSign s).2.dropWhile isDig)).1).isEmpty = false := by
        by_cases hfp2 : ((splitFrac ((splitSign s).2.dropWhile isDig)).1).isEmpty = true
        · exact absurd ⟨hip, hfp2⟩ hg
        · simpa using hfp2
      have h3 := splitFrac_nonempty_length_lt ((splitSign s).2.dropWhile isDig) hfp
      have h4 := dropWhile_length_le isDig (splitSign s).2
      omega
    · -- integral part nonempty
      have hip2 : ((splitSign s).2.takeWhile isDig).isEmpty = false := by
        simpa using hip
      have h3 := takeWhile_ne_nil_dropWhile_lt isDig (splitSign s).2 hip2
      have h4 := splitFrac_length_le ((splitSign s).2.dropWhile isDig)
      omega

/-! ## Document model (Types.hpp) -/

/-- `XmlNode` (Types.hpp): tag name, attribute map, children, inline text.
`std::map<std::string, std::string>` is modelled as an association list
whose lookups return the first binding of a key. -/
inductive XmlNode where
  | mk (name : Str) (attributes : List (Str × Str)) (children : List XmlNode)
       (text : Str)

def XmlNode.name : XmlNode → Str
  | .mk n _ _ _ => n

def XmlNode.attributes : XmlNode → List (Str × Str)
  | .mk _ a _ _ => a

def XmlNode.children : XmlNode → List XmlNode
  | .mk _ _ c _ => c

def XmlNode.text : XmlNode → Str
  | .mk _ _ _ t => t

/-- `std::map::find` / `count` / `at`: lookup by key. -/
def assocFind {α : Type} (m : List (Str × α)) (k : Str) : Option α :=
  (m.find? (fun p => p.1 = k)).map (·.2)

/-- `std::map::operator[] =` : insert or assign (the last write wins). -/
def assocSet {α : Type} (m : List (Str × α)) (k : Str) (v : α) : List (Str × α) :=
  match m with
  | [] => [(k, v)]
  | (k2, v2) :: rest =>
      if k2 = k then (k, v) :: rest else (k2, v2) :: assocSet rest k v

/-- `std::map::emplace` : insert only when the key is absent (the first
write wins). -/
def assocAdd {α : Type} (m : List (Str × α)) (k : Str) (v : α) : List (Str × α) :=
  match assocFind m k with
  | some _ => m
  | none => m ++ [(k, v)]

/-! ## GeometryEngine::ParsePointList (GeometryEngine.cpp lines 127-155) -/

/-- The skip set of the point-list scanner: whitespace or a comma. -/
def isSpaceOrComma (c : Char) : Bool := isCppSpace c || c = ','

/-- The scanning loop of `GeometryEngine::ParsePointList`: skip whitespace
and commas, convert with `strtod`, step one character past anything
unconvertible, and collect every converted number in order.  The loop is
written with an explicit step budget; since every iteration consumes at
least one character (`strtodCore_length_lt`), a budget of `length + 1`
steps runs the C++ loop to completion. -/
def parsePointValuesFuel : ℕ → Str → List ℚ
  | 0, _ => []
  | fuel + 1, s =>
      let s1 := s.dropWhile isSpaceOrComma
      if s1.isEmpty then []
      else
        match strtodCore s1 with
        | some (v, rest) => v :: parsePointValuesFuel fuel rest
        | none => parsePointValuesFuel fuel s1.tail

/-- The number-scanning phase of `GeometryEngine::ParsePointList`. -/
def parsePointValues (s : Str) : List ℚ :=
  parsePointValuesFuel (s.length + 1) s

/-- The pairing loop of `GeometryEngine::ParsePointList`
(`for (index; index + 1 < values.size(); index += 2)`): consecutive values
become points; a trailing unpaired value is dropped. -/
def pairUp : List ℚ → List (ℚ × ℚ)
  | a :: b :: rest => (a, b) :: pairUp rest
  | _ => []

/-- `GeometryEngine::ParsePointList`: scan the numbers, then pair them. -/
def parsePointList (s : Str) : List (ℚ × ℚ) :=
  pairUp (parsePointValues s)

theorem pairUp_length (l : List ℚ) : (pairUp l).length = l.length / 2 := by
  match l with
  | [] => simp [pairUp]
  | [a] => simp [pairUp]
  | a :: b :: rest =>
      have ih := pairUp_length rest
      simp only [pairUp, List.length_cons, ih]
      omega

theorem pairUp_getD (l : List ℚ) (k : ℕ) (hk : k < l.length / 2) :
    (pairUp l).getD k (0, 0) = (l.getD (2 * k) 0, l.getD (2 * k + 1) 0) := by
  match l with
  | [] => simp at hk
  | [a] =>
      simp only [List.length_cons, List.length_nil] at hk
      omega
  | a :: b :: rest =>
      match k with
      | 0 => simp [pairUp]
      | k + 1 =>
          have hk2 : k < rest.length / 2 := by
            simp only [List.length_cons] at hk
            omega
          have ih := pairUp_getD rest k hk2
          have e1 : 2 * (k + 1) = (2 * k + 1) + 1 := by omega
          rw [e1]
          simp only [pairUp, List.getD_cons_succ]
          exact ih

/-- C9: the point-list parser collects the maximal sequence of convertible
numbers and pairs them in order; `n` convertible numbers yield exactly
`⌊n/2⌋` points, and the `k`-th point is the `(2k, 2k+1)`-th pair of scanned
values, so an odd trailing coordinate is silently dropped. -/
theorem parsePointList_pairs_floor (s : Str) :
    (parsePointList s).length = (parsePointValues s).length / 2 ∧
    (∀ k : ℕ, k < (parsePointValues s).length / 2 →
      (parsePointList s).getD k (0, 0) =
        ((parsePointValues s).getD (2 * k) 0,
         (parsePointValues s).getD (2 * k + 1) 0)) := by
  constructor
  · exact pairUp_length (parsePointValues s)
  · intro k hk
    exact pairUp_getD (parsePointValues s) k hk

/-- Witness for `parsePointList_pairs_floor` at the concrete points string
`"10,20 30 40 50"`: five numbers give two points and the pairing holds at
index 0. -/
theorem parsePointList_pairs_floor_witness :
    (0 < (parsePointValues ("10,20 30 40 50".toList)).length / 2) ∧
    (parsePointList ("10,20 30 40 50".toList)).getD 0 (0, 0) =
      ((parsePointValues ("10,20 30 40 50".toList)).getD 0 0,
       (parsePointValues ("10,20 30 40 50".toList)).getD 1 0) :=
  ⟨by decide, (parsePointList_pairs_floor ("10,20 30 40 50".toList)).2 0 (by decide)⟩

/-! ## Numeric helpers -/

/-- `std::clamp(v, lo, hi)`. -/
def cppClamp (v lo hi : ℚ) : ℚ :=
  if v < lo then lo else if hi < v then hi else v

/-- `std::lround`: round half away from zero. -/
def lroundQ (q : ℚ) : ℤ :=
  if q < 0 then -(Int.floor (-q + 1/2)) else Int.floor (q + 1/2)

/-- `static_cast<int>(double)` / `static_cast<int32_t>(double)`:
truncation toward zero (in-range values; the embedding does not model the
out-of-range undefined behavior). -/
def truncQ (q : ℚ) : ℤ :=
  if q < 0 then -(Int.floor (-q)) else Int.floor q

/-- The IEEE double `M_PI`. -/
def mPI : ℚ := 884279719003555 / 281474976710656

/-- Transcendental operations of `<cmath>` used by the engine.  They are
parameters of the embedding: every theorem holds for all implementations. -/
structure MathOps where
  sinQ : ℚ → ℚ
  cosQ : ℚ → ℚ
  tanQ : ℚ → ℚ
  atan2Q : ℚ → ℚ → ℚ
  sqrtQ : ℚ → ℚ
  powQ : ℚ → ℚ → ℚ
  expQ : ℚ → ℚ

/-- A vacuous `MathOps` instance, used only to instantiate witnesses whose
control paths never reach a transcendental call. -/
def zeroOps : MathOps :=
  { sinQ := fun _ => 0, cosQ := fun _ => 0, tanQ := fun _ => 0,
    atan2Q := fun _ _ => 0, sqrtQ := fun _ => 0, powQ := fun _ _ => 0,
    expQ := fun _ => 0 }

/-- `CGAffineTransform`. -/
structure Affine where
  a : ℚ
  b : ℚ
  c : ℚ
  d : ℚ
  tx : ℚ
  ty : ℚ
deriving DecidableEq

/-- `CGAffineTransformIdentity`. -/
def affineIdentity : Affine := ⟨1, 0, 0, 1, 0, 0⟩

/-- `CGAffineTransformConcat(t1, t2)` (row-vector convention: apply `t1`,
then `t2`). -/
def affineConcat (t1 t2 : Affine) : Affine :=
  { a := t1.a * t2.a + t1.b * t2.c
    b := t1.a * t2.b + t1.b * t2.d
    c := t1.c * t2.a + t1.d * t2.c
    d := t1.c * t2.b + t1.d * t2.d
    tx := t1.tx * t2.a + t1.ty * t2.c + t2.tx
    ty := t1.tx * t2.b + t1.ty * t2.d + t2.ty }

/-- `CGAffineTransformMakeTranslation`. -/
def affineTranslation (tx ty : ℚ) : Affine := ⟨1, 0, 0, 1, tx, ty⟩

/-- `CGAffineTransformMakeScale`. -/
def affineScale (sx sy : ℚ) : Affine := ⟨sx, 0, 0, sy, 0, 0⟩

/-- `CGAffineTransformMakeRotation`. -/
def affineRotation (ops : MathOps) (angle : ℚ) : Affine :=
  ⟨ops.cosQ angle, ops.sinQ angle, -(ops.sinQ angle), ops.cosQ angle, 0, 0⟩

/-- `CGAffineTransformTranslate(m, tx, ty)`. -/
def affineTranslate (m : Affine) (tx ty : ℚ) : Affine :=
  affineConcat (affineTranslation tx ty) m

/-- `CGAffineTransformRotate(m, angle)`. -/
def affineRotate (ops : MathOps) (m : Affine) (angle : ℚ) : Affine :=
  affineConcat (affineRotation ops angle) m

/-! ## Colors (Types.hpp `Color`, StyleResolver.cpp) -/

/-- `Color` (Types.hpp). -/
structure Color where
  is_none : Bool := false
  is_valid : Bool := false
  r : ℚ := 0
  g : ℚ := 0
  b : ℚ := 0
  a : ℚ := 1
deriving DecidableEq

/-- Value of one hex digit. -/
def hexDigitVal (c : Char) : Option ℕ :=
  if '0' ≤ c ∧ c ≤ '9' then some (c.toNat - '0'.toNat)
  else if 'a' ≤ c ∧ c ≤ 'f' then some (c.toNat - 'a'.toNat + 10)
  else if 'A' ≤ c ∧ c ≤ 'F' then some (c.toNat - 'A'.toNat + 10)
  else none

/-- `std::stoi(s, nullptr, 16)` on the two-character substrings used by
`StyleResolver::ParseColor`: the value of the leading hex digits, or `none`
when there is none (where the C++ call would throw, aborting the render;
no claim exercises that corner). -/
def stoiHex (s : Str) : Option ℕ :=
  let ds := s.takeWhile (fun c => (hexDigitVal c).isSome)
  if ds.isEmpty then none
  else some (ds.foldl (fun acc c => acc * 16 + ((hexDigitVal c).getD 0)) 0)

/-- `NamedColor` (StyleResolver.cpp). -/
def namedColor (r g b : ℚ) (a : ℚ := 1) : Color :=
  { is_none := false, is_valid := true, r := r, g := g, b := b, a := a }

/-- The `kNamedColors` table of `ParseNamedColor` (StyleResolver.cpp). -/
def namedColorTable : List (Str × Color) :=
  [ ("black".toList, namedColor 0 0 0)
  , ("white".toList, namedColor 1 1 1)
  , ("red".toList, namedColor 1 0 0)
  , ("green".toList, namedColor 0 (1/2) 0)
  , ("blue".toList, namedColor 0 0 1)
  , ("yellow".toList, namedColor 1 1 0)
  , ("orange".toList, namedColor 1 (64705884/100000000) 0)
  , ("purple".toList, namedColor (1/2) 0 (1/2))
  , ("gray".toList, namedColor (1/2) (1/2) (1/2))
  , ("grey".toList, namedColor (1/2) (1/2) (1/2))
  , ("cyan".toList, namedColor 0 1 1)
  , ("aqua".toList, namedColor 0 1 1)
  , ("magenta".toList, namedColor 1 0 1)
  , ("fuchsia".toList, namedColor 1 0 1)
  , ("lime".toList, namedColor 0 1 0)
  , ("navy".toList, namedColor 0 0 (5019608/10000000))
  , ("maroon".toList, namedColor (5019608/10000000) 0 0)
  , ("silver".toList, namedColor (7529412/10000000) (7529412/10000000) (7529412/10000000))
  , ("gold".toList, namedColor 1 (84313726/100000000) 0)
  , ("darkblue".toList, namedColor 0 0 (54509807/100000000))
  , ("lightblue".toList, namedColor (6784314/10000000) (84705883/100000000) (9019608/10000000))
  , ("forestgreen".toList, namedColor (13333334/100000000) (54509807/100000000) (13333334/100000000))
  , ("crimson".toList, namedColor (8627451/10000000) (78431375/1000000000) (23529412/100000000))
  , ("palegreen".toList, namedColor (59607846/100000000) (9843137/10000000) (59607846/100000000))
  , ("royalblue".toList, namedColor (25490198/100000000) (4117647/10000000) (88235295/100000000))
  , ("firebrick".toList, namedColor (69803923/100000000) (13333334/100000000) (13333334/100000000))
  , ("seagreen".toList, namedColor (18039216/100000000) (54509807/100000000) (34117648/100000000))
  , ("mediumblue".toList, namedColor 0 0 (8039216/10000000))
  , ("indianred".toList, namedColor (8039216/10000000) (36078432/100000000) (36078432/100000000))
  , ("lawngreen".toList, namedColor (4862745/10000000) (9882353/10000000) 0)
  , ("mediumturquoise".toList, namedColor (28235295/100000000) (81960785/100000000) (8/10))
  , ("activeborder".toList, namedColor 0 0 0)
  , ("activecaption".toList, namedColor 0 0 (5019608/10000000))
  , ("appworkspace".toList, namedColor 0 (36078432/100000000) (36078432/100000000))
  , ("background".toList, namedColor 0 (36078432/100000000) (36078432/100000000))
  , ("buttonface".toList, namedColor (7529412/10000000) (7529412/10000000) (7529412/10000000))
  , ("buttonhighlight".toList, namedColor 1 1 1)
  , ("buttonshadow".toList, namedColor (627451/1000000) (627451/1000000) (627451/1000000))
  , ("buttontext".toList, namedColor 0 0 0)
  , ("captiontext".toList, namedColor 1 1 1)
  , ("graytext".toList, namedColor (427451/1000000) (427451/1000000) (427451/1000000))
  , ("highlight".toList, namedColor 0 0 (5019608/10000000))
  , ("highlighttext".toList, namedColor 1 1 1)
  , ("inactiveborder".toList, namedColor (7529412/10000000) (7529412/10000000) (7529412/10000000))
  , ("inactivecaption".toList, namedColor (5019608/10000000) (5019608/10000000) (5019608/10000000))
  , ("inactivecaptiontext".toList, namedColor (7529412/10000000) (7529412/10000000) (7529412/10000000))
  , ("infobackground".toList, namedColor 1 1 (88235295/100000000))
  , ("infotext".toList, namedColor 0 0 0)
  , ("menu".toList, namedColor (7529412/10000000) (7529412/10000000) (7529412/10000000))
  , ("menutext".toList, namedColor 0 0 0)
  , ("scrollbar".toList, namedColor (78431374/100000000) (78431374/100000000) (78431374/100000000))
  , ("threeddarkshadow".toList, namedColor 0 0 0)
  , ("threedface".toList, namedColor (7529412/10000000) (7529412/10000000) (7529412/10000000))
  , ("threedhighlight".toList, namedColor 1 1 1)
  , ("threedlightshadow".toList, namedColor (8901961/10000000) (8901961/10000000) (8901961/10000000))
  , ("threedshadow".toList, namedColor (627451/1000000) (627451/1000000) (627451/1000000))
  , ("window".toList, namedColor 1 1 1)
  , ("windowframe".toList, namedColor 0 0 0)
  , ("windowtext".toList, namedColor 0 0 0) ]

/-- `ParseNamedColor` (StyleResolver.cpp). -/
def parseNamedColor (lower : Str) : Option Color :=
  assocFind namedColorTable lower

/-- `*end_ptr` of a parse remainder (`'\0'` at the end of a C string). -/
def headChar (s : Str) : Char := s.headD (Char.ofNat 0)

/-- `SplitCssFunctionArgs` (StyleResolver.cpp): split on commas,
whitespace and `/`, dropping empties. -/
def splitCssFunctionArgs (args : Str) : List Str :=
  let fin := args.foldl
    (fun (acc : List Str × Str) c =>
      if c = ',' ∨ isCppSpace c ∨ c = '/' then
        if acc.2.isEmpty then (acc.1, []) else (acc.1 ++ [acc.2], [])
      else (acc.1, acc.2 ++ [c]))
    ([], [])
  if fin.2.isEmpty then fin.1 else fin.1 ++ [fin.2]

/-- `ParseCssFloat` (StyleResolver.cpp): trim, then `strtof`; `none` when
nothing converts. -/
def parseCssFloat (value : Str) : Option ℚ :=
  let t := trimStr value
  if t.isEmpty then none
  else
    match strtodStr t with
    | none => none
    | some (v, _) => some v

/-- `ParseCssByteComponent` (StyleResolver.cpp). -/
def parseCssByteComponent (value : Str) : ℚ :=
  let t := trimStr value
  if t.isEmpty then 0
  else if t.getLast? = some '%' then
    cppClamp (((parseCssFloat t.dropLast).getD 0) / 100) 0 1
  else
    cppClamp (((parseCssFloat t).getD 0) / 255) 0 1

/-- `ParseCssAlphaComponent` (StyleResolver.cpp). -/
def parseCssAlphaComponent (value : Str) : ℚ :=
  let t := trimStr value
  if t.isEmpty then 1
  else if t.getLast? = some '%' then
    cppClamp (((parseCssFloat t.dropLast).getD 100) / 100) 0 1
  else
    cppClamp ((parseCssFloat t).getD 1) 0 1

/-- Last index of a character (`std::string::rfind`). -/
def findLastIdx (s : Str) (c : Char) : Option ℕ :=
  match s.reverse.findIdx? (· = c) with
  | none => none
  | some i => some (s.length - 1 - i)

/-- `ParseFunctionColor` (StyleResolver.cpp): `rgb(...)` / `rgba(...)`. -/
def parseFunctionColor (lower : Str) : Color :=
  match lower.findIdx? (· = '('), findLastIdx lower ')' with
  | some openIdx, some closeIdx =>
      if closeIdx ≤ openIdx + 1 then {}
      else
        let name := lower.take openIdx
        let args := splitCssFunctionArgs ((lower.drop (openIdx + 1)).take (closeIdx - openIdx - 1))
        if name = "rgb".toList ∨ name = "rgba".toList then
          if args.length < 3 then {}
          else
            { is_none := false, is_valid := true
              r := parseCssByteComponent (args.getD 0 [])
              g := parseCssByteComponent (args.getD 1 [])
              b := parseCssByteComponent (args.getD 2 [])
              a := if 4 ≤ args.length then parseCssAlphaComponent (args.getD 3 []) else 1 }
        else {}
  | _, _ => {}

/-- One `#xx` byte as a color channel. -/
def hexByteChannel (s : Str) : Option ℚ :=
  (stoiHex s).map (fun n => (n : ℚ) / 255)

/-- `StyleResolver::ParseColor` (StyleResolver.cpp lines 445-510).  In the
hex branches the C++ `std::stoi` throws on a non-hex pair, aborting the
render; the model returns the invalid color there. -/
def parseColor (value : Str) : Color :=
  let lower := lowerStr (trimStr value)
  if lower.isEmpty then {}
  else if lower = "none".toList then { is_none := true, is_valid := true }
  else
    let hexResult : Option Color :=
      if headChar lower = '#' then
        if lower.length = 7 then
          match hexByteChannel ((lower.drop 1).take 2),
                hexByteChannel ((lower.drop 3).take 2),
                hexByteChannel ((lower.drop 5).take 2) with
          | some r, some g, some b =>
              some { is_none := false, is_valid := true, r := r, g := g, b := b, a := 1 }
          | _, _, _ => some {}
        else if lower.length = 9 then
          match hexByteChannel ((lower.drop 1).take 2),
                hexByteChannel ((lower.drop 3).take 2),
                hexByteChannel ((lower.drop 5).take 2),
                hexByteChannel ((lower.drop 7).take 2) with
          | some r, some g, some b, some a =>
              some { is_none := false, is_valid := true, r := r, g := g, b := b, a := a }
          | _, _, _, _ => some {}
        else if lower.length = 4 then
          match hexByteChannel [lower.getD 1 ' ', lower.getD 1 ' '],
                hexByteChannel [lower.getD 2 ' ', lower.getD 2 ' '],
                hexByteChannel [lower.getD 3 ' ', lower.getD 3 ' '] with
          | some r, some g, some b =>
              some { is_none := false, is_valid := true, r := r, g := g, b := b, a := 1 }
          | _, _, _ => some {}
        else if lower.length = 5 then
          match hexByteChannel [lower.getD 1 ' ', lower.getD 1 ' '],
                hexByteChannel [lower.getD 2 ' ', lower.getD 2 ' '],
                hexByteChannel [lower.getD 3 ' ', lower.getD 3 ' '],
                hexByteChannel [lower.getD 4 ' ', lower.getD 4 ' '] with
          | some r, some g, some b, some a =>
              some { is_none := false, is_valid := true, r := r, g := g, b := b, a := a }
          | _, _, _, _ => some {}
        else none
      else none
    match hexResult with
    | some c => c
    | none =>
        if ("rgb(".toList).isPrefixOf lower ∨ ("rgba(".toList).isPrefixOf lower then
          parseFunctionColor lower
        else if lower = "transparent".toList then namedColor 0 0 0 0
        else
          match parseNamedColor lower with
          | some c => c
          | none => {}

/-! ## Inline style and attribute access (PaintEngine.cpp lines 557-639) -/

/-- `ParseInlineStyle` (PaintEngine.cpp, StyleResolver.cpp): split on `;`
(`std::getline` tokens), then on the first `:`; lowercase/trim the key,
trim the value, keep nonempty pairs (later pairs overwrite earlier ones). -/
def parseInlineStyle (styleText : Str) : List (Str × Str) :=
  (styleText.splitOn ';').foldl
    (fun out token =>
      match token.findIdx? (· = ':') with
      | none => out
      | some sep =>
          let key := lowerStr (trimStr (token.take sep))
          let value := trimStr (token.drop (sep + 1))
          if key.isEmpty ∨ value.isEmpty then out
          else assocSet out key value)
    []

/-- `ReadAttrOrStyle` (PaintEngine.cpp): attribute first, then the inline
style map. -/
def readAttrOrStyle (node : XmlNode) (inlineStyle : List (Str × Str)) (key : Str) :
    Option Str :=
  match assocFind node.attributes key with
  | some v => some v
  | none => assocFind inlineStyle key

/-- The inline style map of a node (the
`node.attributes.find("style")`-guarded `ParseInlineStyle` call that opens
`PaintNode` and `CollectGradients`). -/
def nodeInlineStyle (node : XmlNode) : List (Str × Str) :=
  match assocFind node.attributes ("style".toList) with
  | some styleText => parseInlineStyle styleText
  | none => []

/-- `ParseCoordinate` (PaintEngine.cpp lines 587-603). -/
def parseCoordinate (raw : Str) (fallback : ℚ) : ℚ :=
  let t := trimStr raw
  if t.isEmpty then fallback
  else
    match strtodStr t with
    | none => fallback
    | some (v, rest) => if headChar rest = '%' then v / 100 else v

/-- `ParseOffset` (PaintEngine.cpp lines 605-621): missing/unparseable
offsets become 0; numbers and percentages are clamped into `[0, 1]`. -/
def parseOffset (raw : Str) : ℚ :=
  let t := trimStr raw
  if t.isEmpty then 0
  else
    match strtodStr t with
    | none => 0
    | some (v, rest) =>
        if headChar rest = '%' then cppClamp (v / 100) 0 1
        else cppClamp v 0 1

/-- `ParseDouble` (PaintEngine.cpp lines 623-639). -/
def parseDouble (raw : Str) (fallback : ℚ) : ℚ :=
  let t := trimStr raw
  if t.isEmpty then fallback
  else
    match strtodStr t with
    | none => fallback
    | some (v, rest) => if headChar rest = '%' then v / 100 else v

/-! ## Transform lists (PaintEngine.cpp `ParseTransformList`, lines 1304-1399) -/

/-- The parameter loop of `ParseTransformList`: numbers up to the closing
parenthesis, stepping over unconvertible characters.  Budgeted; every
iteration consumes at least one character. -/
def parseTransformParamsFuel : ℕ → Str → List ℚ × Str
  | 0, s => ([], s)
  | fuel + 1, s =>
      let s1 := s.dropWhile isSpaceOrComma
      if s1.isEmpty then ([], s1)
      else if headChar s1 = ')' then ([], s1)
      else
        match strtodCore s1 with
        | some (v, rest) =>
            let pr := parseTransformParamsFuel fuel rest
            (v :: pr.1, pr.2)
        | none => parseTransformParamsFuel fuel s1.tail

/-- The dispatch of `ParseTransformList` on the transform name, producing
`current`. -/
def transformForName (ops : MathOps) (name : Str) (params : List ℚ) : Affine :=
  if name = "matrix".toList ∧ 6 ≤ params.length then
    ⟨params.getD 0 0, params.getD 1 0, params.getD 2 0,
     params.getD 3 0, params.getD 4 0, params.getD 5 0⟩
  else if name = "translate".toList ∧ ¬params.isEmpty then
    affineTranslation (params.getD 0 0)
      (if 1 < params.length then params.getD 1 0 else 0)
  else if name = "scale".toList ∧ ¬params.isEmpty then
    affineScale (params.getD 0 0)
      (if 1 < params.length then params.getD 1 0 else params.getD 0 0)
  else if name = "rotate".toList ∧ ¬params.isEmpty then
    let angleRad := params.getD 0 0 * mPI / 180
    if 2 < params.length then
      let cx := params.getD 1 0
      let cy := params.getD 2 0
      affineTranslate (affineRotate ops (affineTranslate affineIdentity cx cy) angleRad)
        (-cx) (-cy)
    else affineRotation ops angleRad
  else if name = "skewx".toList ∧ ¬params.isEmpty then
    ⟨1, 0, ops.tanQ (params.getD 0 0 * mPI / 180), 1, 0, 0⟩
  else if name = "skewy".toList ∧ ¬params.isEmpty then
    ⟨1, ops.tanQ (params.getD 0 0 * mPI / 180), 0, 1, 0, 0⟩
  else affineIdentity

/-- The outer loop of `ParseTransformList`. -/
def parseTransformListFuel (ops : MathOps) : ℕ → Str → Affine → Affine
  | 0, _, t => t
  | fuel + 1, s, t =>
      let s1 := s.dropWhile isSpaceOrComma
      if s1.isEmpty then t
      else
        let nameRun := s1.takeWhile isCppAlpha
        let afterName := s1.dropWhile isCppAlpha
        if nameRun.isEmpty then parseTransformListFuel ops fuel s1.tail t
        else
          let name := lowerStr nameRun
          let afterSpaces := afterName.dropWhile isCppSpace
          if afterSpaces.isEmpty ∨ ¬(headChar afterSpaces = '(') then
            parseTransformListFuel ops fuel afterSpaces t
          else
            let pr := parseTransformParamsFuel (afterSpaces.tail.length + 1) afterSpaces.tail
            let afterParams := if headChar pr.2 = ')' then pr.2.tail else pr.2
            let current := transformForName ops name pr.1
            parseTransformListFuel ops fuel afterParams (affineConcat current t)

/-- `ParseTransformList` (PaintEngine.cpp): SVG transforms applied left to
right onto the identity. -/
def parseTransformList (ops : MathOps) (raw : Str) : Affine :=
  parseTransformListFuel ops (raw.length + 1) raw affineIdentity

/-! ## SVG lengths (PaintEngine.cpp lines 641-726; the same arithmetic is
duplicated in GeometryEngine.cpp lines 26-112) -/

/-- `SvgLengthAxis` / `LengthAxis`. -/
inductive LengthAxis where
  | x
  | y
  | diagonal
deriving DecidableEq

/-- `NormalizeViewportDiagonal` / `NormalizeDiagonal`:
`sqrt((w² + h²) / 2)`, or 100 for an empty viewport. -/
def normalizeViewportDiagonal (ops : MathOps) (w h : ℚ) : ℚ :=
  if w ≤ 0 ∨ h ≤ 0 then 100 else ops.sqrtQ ((w * w + h * h) / 2)

/-- `PercentLengthBasis` / `PercentBasis`. -/
def percentLengthBasis (ops : MathOps) (axis : LengthAxis) (vw vh : ℚ) : ℚ :=
  match axis with
  | .x => if 0 < vw then vw else 100
  | .y => if 0 < vh then vh else 100
  | .diagonal => normalizeViewportDiagonal ops vw vh

/-- `ConvertLengthToPixels` / `ConvertAbsoluteLength`: absolute units at
96 px/in. -/
def convertLengthToPixels (value : ℚ) (unit : Str) : ℚ :=
  if unit.isEmpty ∨ unit = "px".toList then value
  else if unit = "pt".toList then value * (96 / 72)
  else if unit = "pc".toList then value * 16
  else if unit = "in".toList then value * 96
  else if unit = "cm".toList then value * (96 / (254/100))
  else if unit = "mm".toList then value * (96 / (254/10))
  else if unit = "q".toList then value * (96 / (1016/10))
  else value

/-- `ParseSVGLength` / `ParseLength`. -/
def parseSVGLength (ops : MathOps) (raw : Str) (fallback : ℚ) (axis : LengthAxis)
    (vw vh : ℚ) : ℚ :=
  let t := trimStr raw
  if t.isEmpty then fallback
  else
    match strtodStr t with
    | none => fallback
    | some (v, rest) =>
        let suffix := lowerStr (trimStr rest)
        if suffix = "%".toList then (v / 100) * percentLengthBasis ops axis vw vh
        else convertLengthToPixels v suffix

/-- `ParseSVGLengthAttr` / `ParseLengthAttr`. -/
def parseSVGLengthAttr (ops : MathOps) (attrs : List (Str × Str)) (key : Str)
    (fallback : ℚ) (axis : LengthAxis) (vw vh : ℚ) : ℚ :=
  match assocFind attrs key with
  | none => fallback
  | some raw => parseSVGLength ops raw fallback axis vw vh

/-! ## viewBox parsing -/

/-- One `stringstream >> double` extraction (whitespace skip plus decimal
conversion). -/
def readDouble (s : Str) : Option (ℚ × Str) := strtodStr s

/-- `ParseViewBoxValue` (PaintEngine.cpp lines 728-741): commas become
spaces, four doubles are extracted, and the box must have positive width
and height. -/
def parseViewBoxValue (raw : Str) : Option (ℚ × ℚ × ℚ × ℚ) :=
  let norm := raw.map (fun c => if c = ',' then ' ' else c)
  match readDouble norm with
  | none => none
  | some (x, r1) =>
      match readDouble r1 with
      | none => none
      | some (y, r2) =>
          match readDouble r2 with
          | none => none
          | some (w, r3) =>
              match readDouble r3 with
              | none => none
              | some (h, _) =>
                  if 0 < w ∧ 0 < h then some (x, y, w, h) else none

/-! ## Layout (LayoutEngine.cpp) -/

/-- `RenderErrorCode` (Types.hpp). -/
inductive RenderErrorCode where
  | kNone
  | kInvalidDocument
  | kUnsupportedFeature
  | kExternalResourceBlocked
  | kExternalResourceFailed
  | kRenderFailed
deriving DecidableEq

/-- `RenderError` (Types.hpp). -/
structure RenderError where
  code : RenderErrorCode := .kNone
  message : Str := []
deriving DecidableEq

/-- `RenderOptions` (Types.hpp), with its C++ default member values. -/
structure RenderOptions where
  viewport_width : ℤ := 0
  viewport_height : ℤ := 0
  scale : ℚ := 1
  background_red : ℚ := 0
  background_green : ℚ := 0
  background_blue : ℚ := 0
  background_alpha : ℚ := 0
  default_font_family : Str := "Helvetica".toList
  default_font_size : ℚ := 16
  enable_external_resources : Bool := false

/-- `CompatFlags` (CompatFlags.hpp), with its C++ default member values. -/
structure CompatFlags where
  strict_mode : Bool := true
  deterministic_rendering : Bool := true
  allow_unsupported_filter_fallback : Bool := false

/-- `LayoutResult` (LayoutEngine.hpp), with its C++ default member
values. -/
structure LayoutResult where
  width : ℤ := 300
  height : ℤ := 150
  view_box_x : ℚ := 0
  view_box_y : ℚ := 0
  view_box_width : ℚ := 0
  view_box_height : ℚ := 0

/-- The unchecked `stream >> x >> y >> w >> h` of `LayoutEngine::Compute`:
a failed extraction leaves the (zero-initialized) field at 0 and stops the
later extractions. -/
def layoutViewBoxParse (raw : Str) : ℚ × ℚ × ℚ × ℚ :=
  match readDouble raw with
  | none => (0, 0, 0, 0)
  | some (x, r1) =>
      match readDouble r1 with
      | none => (x, 0, 0, 0)
      | some (y, r2) =>
          match readDouble r2 with
          | none => (x, y, 0, 0)
          | some (w, r3) =>
              match readDouble r3 with
              | none => (x, y, w, 0)
              | some (h, _) => (x, y, w, h)

/-- `ParseDimension` (LayoutEngine.cpp lines 10-39): keep only
`[0-9.+-]`, convert, scale percentages against the fallback. -/
def parseDimension (attrs : List (Str × Str)) (key : Str) (fallback : ℚ) : ℚ :=
  match assocFind attrs key with
  | none => fallback
  | some raw =>
      if raw.isEmpty then fallback
      else
        let cleaned := raw.filter (fun c => isDig c || c = '.' || c = '-' || c = '+')
        match strtodStr cleaned with
        | none => fallback
        | some (parsed, _) =>
            if raw.contains '%' then fallback * parsed / 100 else parsed

/-- `LayoutEngine::Compute` (LayoutEngine.cpp lines 43-82). -/
def layoutCompute (root : XmlNode) (options : RenderOptions) :
    Except RenderError LayoutResult :=
  let vb :=
    match assocFind root.attributes ("viewBox".toList) with
    | some s => layoutViewBoxParse s
    | none => (0, 0, 0, 0)
  let vbW := vb.2.2.1
  let vbH := vb.2.2.2
  let hasViewbox := 0 < vbW ∧ 0 < vbH
  let fallbackWidth : ℚ :=
    if 0 < options.viewport_width then (options.viewport_width : ℚ)
    else if hasViewbox then vbW else 300
  let fallbackHeight : ℚ :=
    if 0 < options.viewport_height then (options.viewport_height : ℚ)
    else if hasViewbox then vbH else 150
  let width : ℤ := truncQ (parseDimension root.attributes ("width".toList) fallbackWidth)
  let height : ℤ := truncQ (parseDimension root.attributes ("height".toList) fallbackHeight)
  if width ≤ 0 ∨ height ≤ 0 then
    .error { code := .kInvalidDocument, message := "Invalid SVG viewport dimensions".toList }
  else
    let vbx := if hasViewbox then vb.1 else 0
    let vby := if hasViewbox then vb.2.1 else 0
    let vbw := if hasViewbox then vbW else (width : ℚ)
    let vbh := if hasViewbox then vbH else (height : ℚ)
    .ok { width := truncQ ((width : ℚ) * options.scale)
          height := truncQ ((height : ℚ) * options.scale)
          view_box_x := vbx
          view_box_y := vby
          view_box_width := vbw
          view_box_height := vbh }

/-! ## Reference and id helpers (PaintEngine.cpp) -/

/-- `LocalName` (PaintEngine.cpp lines 3736-3742, FilterGraph.cpp): the
lowercased part after the last `:`. -/
def localName (name : Str) : Str :=
  match findLastIdx name ':' with
  | none => lowerStr name
  | some sep => lowerStr (name.drop (sep + 1))

/-- `ExtractHrefID` (PaintEngine.cpp lines 1040-1053): the fragment id of
`href`/`xlink:href`, requiring a leading `#`. -/
def extractHrefID (node : XmlNode) : Option Str :=
  let value :=
    match assocFind node.attributes ("href".toList) with
    | some v => trimStr v
    | none =>
        match assocFind node.attributes ("xlink:href".toList) with
        | some v => trimStr v
        | none => []
  if value.isEmpty ∨ ¬(headChar value = '#') ∨ value.length < 2 then none
  else some (value.drop 1)

/-- `ExtractHrefValue` (PaintEngine.cpp lines 1055-1071). -/
def extractHrefValue (node : XmlNode) : Option Str :=
  match assocFind node.attributes ("href".toList) with
  | some v =>
      let t := trimStr v
      if ¬t.isEmpty then some t
      else
        match assocFind node.attributes ("xlink:href".toList) with
        | some v2 =>
            let t2 := trimStr v2
            if ¬t2.isEmpty then some t2 else none
        | none => none
  | none =>
      match assocFind node.attributes ("xlink:href".toList) with
      | some v2 =>
          let t2 := trimStr v2
          if ¬t2.isEmpty then some t2 else none
      | none => none

/-- `ExtractPaintURLId` (PaintEngine.cpp lines 1401-1425): the id inside
`url(...)`, unquoted, with an optional leading `#`. -/
def extractPaintURLId (paint : Str) : Option Str :=
  let trimmed := trimStr paint
  let lower := lowerStr trimmed
  if ¬ (("url(".toList).isPrefixOf lower) then none
  else
    match trimmed.findIdx? (· = ')') with
    | none => none
    | some close =>
        if close ≤ 4 then none
        else
          let inside0 := trimStr ((trimmed.drop 4).take (close - 4))
          let inside1 :=
            if 2 ≤ inside0.length ∧
                ((inside0.headD ' ' = '\x27' ∧ inside0.getLast? = some '\x27') ∨
                 (inside0.headD ' ' = '"' ∧ inside0.getLast? = some '"')) then
              (inside0.drop 1).dropLast
            else inside0
          let inside :=
            if ¬inside1.isEmpty ∧ headChar inside1 = '#' then inside1.drop 1
            else inside1
          if inside.isEmpty then none else some inside

/-- `ResolveFilterID` (PaintEngine.cpp lines 1661-1667). -/
def resolveFilterID (node : XmlNode) (inlineStyle : List (Str × Str)) : Option Str :=
  match readAttrOrStyle node inlineStyle ("filter".toList) with
  | none => none
  | some v => extractPaintURLId v

mutual

/-- `CollectNodesByID` (PaintEngine.cpp lines 3540-3548): pre-order;
`emplace` keeps the first node registered for an id. -/
def collectNodesByID (node : XmlNode) (idMap : List (Str × XmlNode)) :
    List (Str × XmlNode) :=
  let idMap2 :=
    match assocFind node.attributes ("id".toList) with
    | some idv => if idv.isEmpty then idMap else assocAdd idMap idv node
    | none => idMap
  collectNodesByIDList node.children idMap2
termination_by sizeOf node
decreasing_by
  cases node
  simp [XmlNode.children]
  omega

/-- The child loop of `CollectNodesByID`. -/
def collectNodesByIDList (nodes : List XmlNode) (idMap : List (Str × XmlNode)) :
    List (Str × XmlNode) :=
  match nodes with
  | [] => idMap
  | c :: cs => collectNodesByIDList cs (collectNodesByID c idMap)
termination_by sizeOf nodes
decreasing_by
  all_goals simp
  all_goals omega

end

mutual

/-- `CollectColorProfiles` (PaintEngine.cpp lines 1130-1153). -/
def collectColorProfiles (node : XmlNode) (profiles : List (Str × Str)) :
    List (Str × Str) :=
  let profiles2 :=
    if lowerStr node.name = "color-profile".toList then
      match extractHrefValue node with
      | some href =>
          let addKey := fun (m : List (Str × Str)) (rawKey : Str) =>
            let key := trimStr rawKey
            if key.isEmpty then m
            else assocSet (assocSet m key href) (lowerStr key) href
          let m1 :=
            match assocFind node.attributes ("id".toList) with
            | some idv => addKey profiles idv
            | none => profiles
          match assocFind node.attributes ("name".toList) with
          | some namev => addKey m1 namev
          | none => m1
      | none => profiles
    else profiles
  collectColorProfilesList node.children profiles2
termination_by sizeOf node
decreasing_by
  cases node
  simp [XmlNode.children]
  omega

/-- The child loop of `CollectColorProfiles`. -/
def collectColorProfilesList (nodes : List XmlNode) (profiles : List (Str × Str)) :
    List (Str × Str) :=
  match nodes with
  | [] => profiles
  | c :: cs => collectColorProfilesList cs (collectColorProfiles c profiles)
termination_by sizeOf nodes
decreasing_by
  all_goals simp
  all_goals omega

end

/-! ## Gradients and patterns (PaintEngine.cpp lines 1427-1594) -/

/-- `GradientStop` (PaintEngine.cpp). -/
structure GradientStop where
  offset : ℚ := 0
  color : Color := {}
  opacity : ℚ := 1
deriving DecidableEq

/-- `GradientType` (PaintEngine.cpp). -/
inductive GradientType where
  | kLinear
  | kRadial
deriving DecidableEq

/-- `GradientDefinition` (PaintEngine.cpp), with its C++ default member
values. -/
structure GradientDefinition where
  type : GradientType := .kLinear
  id : Str := []
  user_space_units : Bool := false
  transform : Affine := affineIdentity
  x1 : ℚ := 0
  y1 : ℚ := 0
  x2 : ℚ := 1
  y2 : ℚ := 0
  cx : ℚ := 1/2
  cy : ℚ := 1/2
  r : ℚ := 1/2
  fx : ℚ := 1/2
  fy : ℚ := 1/2
  stops : List GradientStop := []

/-- `PatternDefinition` (PaintEngine.cpp); the `const XmlNode* node`
content reference is stored by value (the tree is immutable). -/
structure PatternDefinition where
  id : Str := []
  pattern_units_user_space : Bool := false
  content_units_user_space : Bool := true
  transform : Affine := affineIdentity
  x : ℚ := 0
  y : ℚ := 0
  width : ℚ := 0
  height : ℚ := 0
  node : Option XmlNode := none

/-- The resolved `color` of a gradient element (PaintEngine.cpp lines
1437-1443), defaulting to black. -/
def gradientColorOf (node : XmlNode) : Color :=
  let base := parseColor ("black".toList)
  match readAttrOrStyle node (nodeInlineStyle node) ("color".toList) with
  | some cv =>
      let p := parseColor cv
      if p.is_valid ∧ ¬p.is_none then p else base
  | none => base

/-- One `<stop>` child of a gradient (PaintEngine.cpp lines 1484-1525). -/
def gradientStopOf (gradientColor : Color) (stopNode : XmlNode) : GradientStop :=
  let inl := nodeInlineStyle stopNode
  let defaultColor := parseColor ("black".toList)
  let stopCurrentColor :=
    match readAttrOrStyle stopNode inl ("color".toList) with
    | some c =>
        let p := parseColor c
        if p.is_valid ∧ ¬p.is_none then p else gradientColor
    | none => gradientColor
  let offset :=
    match readAttrOrStyle stopNode inl ("offset".toList) with
    | some o => parseOffset o
    | none => 0
  let color :=
    match readAttrOrStyle stopNode inl ("stop-color".toList) with
    | some sc =>
        if lowerStr (trimStr sc) = "currentcolor".toList then stopCurrentColor
        else
          let p := parseColor sc
          if p.is_valid then p else defaultColor
    | none => defaultColor
  let opacity :=
    match readAttrOrStyle stopNode inl ("stop-opacity".toList) with
    | some so => cppClamp (parseDouble so 1) 0 1
    | none => 1
  { offset := offset, color := color, opacity := opacity }

/-- The comparator of the stop sort
(`lhs.offset < rhs.offset`, PaintEngine.cpp lines 1540-1542), as the
non-strict order a sort with a strict-weak comparator produces. -/
def stopLE (a b : GradientStop) : Prop := a.offset ≤ b.offset

instance : DecidableRel stopLE := fun a b => inferInstanceAs (Decidable (a.offset ≤ b.offset))

instance : IsTotal GradientStop stopLE :=
  ⟨fun a b => le_total a.offset b.offset⟩

instance : IsTrans GradientStop stopLE :=
  ⟨fun _ _ _ h1 h2 => le_trans h1 h2⟩

/-- `std::sort` on the stop list: an offset-sorted permutation of its
input (`std::sort` leaves the order of equal offsets unspecified; the
model fixes insertion sort, which produces one such permutation). -/
def sortStops (l : List GradientStop) : List GradientStop :=
  List.insertionSort stopLE l

/-- The stop list a gradient element registers (PaintEngine.cpp lines
1484-1542): declared `<stop>` children in document order, or the implicit
black-to-white pair, sorted ascending by offset. -/
def gradientStopsOf (node : XmlNode) : List GradientStop :=
  let declared := (node.children.filter (fun c => c.name = "stop".toList)).map
    (gradientStopOf (gradientColorOf node))
  let withDefault :=
    if declared.isEmpty then
      [ { offset := 0, color := parseColor ("black".toList), opacity := 1 }
      , { offset := 1, color := parseColor ("white".toList), opacity := 1 } ]
    else declared
  sortStops withDefault

/-- The `GradientDefinition` a `linearGradient`/`radialGradient` element
registers (PaintEngine.cpp lines 1427-1546). -/
def gradientDefOf (ops : MathOps) (node : XmlNode) : GradientDefinition :=
  let base : GradientDefinition :=
    { type := if node.name = "linearGradient".toList then .kLinear else .kRadial }
  let idv :=
    match assocFind node.attributes ("id".toList) with
    | some i => i
    | none => []
  let units :=
    match assocFind node.attributes ("gradientUnits".toList) with
    | some u => lowerStr (trimStr u) == "userspaceonuse".toList
    | none => false
  let transform :=
    match assocFind node.attributes ("gradientTransform".toList) with
    | some t => parseTransformList ops t
    | none => affineIdentity
  let attrCoord := fun (key : Str) (fallback : ℚ) =>
    match assocFind node.attributes key with
    | some v => parseCoordinate v fallback
    | none => fallback
  let withCoords :=
    if base.type = .kLinear then
      { base with
        x1 := attrCoord ("x1".toList) 0, y1 := attrCoord ("y1".toList) 0
        x2 := attrCoord ("x2".toList) 1, y2 := attrCoord ("y2".toList) 0 }
    else
      let cx := attrCoord ("cx".toList) (1/2)
      let cy := attrCoord ("cy".toList) (1/2)
      { base with
        cx := cx, cy := cy, r := attrCoord ("r".toList) (1/2)
        fx := attrCoord ("fx".toList) cx, fy := attrCoord ("fy".toList) cy }
  { withCoords with
    id := idv
    user_space_units := units
    transform := transform
    stops := gradientStopsOf node }

mutual

/-- `CollectGradients` (PaintEngine.cpp lines 1427-1552): pre-order over
the tree; `gradients[id] = gradient` (the last registration of an id
wins); gradients without an id are not registered. -/
def collectGradients (ops : MathOps) (node : XmlNode)
    (gradients : List (Str × GradientDefinition)) : List (Str × GradientDefinition) :=
  let gradients2 :=
    if node.name = "linearGradient".toList ∨ node.name = "radialGradient".toList then
      let g := gradientDefOf ops node
      if ¬g.id.isEmpty then assocSet gradients g.id g else gradients
    else gradients
  collectGradientsList ops node.children gradients2
termination_by sizeOf node
decreasing_by
  cases node
  simp [XmlNode.children]
  omega

/-- The child loop of `CollectGradients`. -/
def collectGradientsList (ops : MathOps) (nodes : List XmlNode)
    (gradients : List (Str × GradientDefinition)) : List (Str × GradientDefinition) :=
  match nodes with
  | [] => gradients
  | c :: cs => collectGradientsList ops cs (collectGradients ops c gradients)
termination_by sizeOf nodes
decreasing_by
  all_goals simp
  all_goals omega

end

mutual

/-- `CollectPatterns` (PaintEngine.cpp lines 1554-1594). -/
def collectPatterns (ops : MathOps) (node : XmlNode)
    (patterns : List (Str × PatternDefinition)) : List (Str × PatternDefinition) :=
  let patterns2 :=
    if lowerStr node.name = "pattern".toList then
      let idv :=
        match assocFind node.attributes ("id".toList) with
        | some i => trimStr i
        | none => []
      let p : PatternDefinition :=
        { id := idv
          pattern_units_user_space :=
            match assocFind node.attributes ("patternUnits".toList) with
            | some u => lowerStr (trimStr u) == "userspaceonuse".toList
            | none => false
          content_units_user_space :=
            match assocFind node.attributes ("patternContentUnits".toList) with
            | some u => lowerStr (trimStr u) == "userspaceonuse".toList
            | none => true
          transform :=
            match assocFind node.attributes ("patternTransform".toList) with
            | some t => parseTransformList ops t
            | none => affineIdentity
          x := match assocFind node.attributes ("x".toList) with
               | some v => parseCoordinate v 0
               | none => 0
          y := match assocFind node.attributes ("y".toList) with
               | some v => parseCoordinate v 0
               | none => 0
          width := match assocFind node.attributes ("width".toList) with
                   | some v => parseCoordinate v 0
                   | none => 0
          height := match assocFind node.attributes ("height".toList) with
                    | some v => parseCoordinate v 0
                    | none => 0
          node := some node }
      if ¬p.id.isEmpty then assocSet patterns p.id p else patterns
    else patterns
  collectPatternsList ops node.children patterns2
termination_by sizeOf node
decreasing_by
  cases node
  simp [XmlNode.children]
  omega

/-- The child loop of `CollectPatterns`. -/
def collectPatternsList (ops : MathOps) (nodes : List XmlNode)
    (patterns : List (Str × PatternDefinition)) : List (Str × PatternDefinition) :=
  match nodes with
  | [] => patterns
  | c :: cs => collectPatternsList ops cs (collectPatterns ops c patterns)
termination_by sizeOf nodes
decreasing_by
  all_goals simp
  all_goals omega

end

/-! ## Pixel surfaces and feComposite (PaintEngine.cpp lines 2066-2166) -/

/-- `PixelSurface` (PaintEngine.cpp): premultiplied RGBA bytes. -/
structure PixelSurface where
  width : ℕ := 0
  height : ℕ := 0
  rgba : List ℕ := []
deriving DecidableEq

/-- `MakeTransparentSurface` (PaintEngine.cpp lines 2170-2176). -/
def makeTransparentSurface (width height : ℕ) : PixelSurface :=
  { width := width, height := height, rgba := List.replicate (width * height * 4) 0 }

/-- The `sample_premul` lambda of `CompositeSurfaces`: a premultiplied
channel in `[0,1]`, or 0 out of bounds. -/
def samplePremul (s : PixelSurface) (base channel : ℕ) : ℚ :=
  if s.rgba.length ≤ base + channel then 0
  else (s.rgba.getD (base + channel) 0 : ℚ) / 255

/-- One byte of the `write_premul` lambda of `CompositeSurfaces`:
`lround(clamp(v, 0, 1) * 255)`. -/
def premulByte (v : ℚ) : ℕ :=
  (lroundQ (cppClamp v 0 1 * 255)).toNat

/-- The per-pixel body of the `CompositeSurfaces` loop (PaintEngine.cpp
lines 2089-2163), producing the four output bytes of pixel `i`. -/
def compositePixelBytes (inS in2S : PixelSurface) (opLower : Str)
    (k1 k2 k3 k4 : ℚ) (i : ℕ) : List ℕ :=
  let base := i * 4
  let inR := samplePremul inS base 0
  let inG := samplePremul inS base 1
  let inB := samplePremul inS base 2
  let aIn := samplePremul inS base 3
  let in2R := samplePremul in2S base 0
  let in2G := samplePremul in2S base 1
  let in2B := samplePremul in2S base 2
  let aIn2 := samplePremul in2S base 3
  let write := fun (r g b a : ℚ) => [premulByte r, premulByte g, premulByte b, premulByte a]
  if opLower = "in".toList then
    write (inR * aIn2) (inG * aIn2) (inB * aIn2) (aIn * aIn2)
  else if opLower = "out".toList then
    write (inR * (1 - aIn2)) (inG * (1 - aIn2)) (inB * (1 - aIn2)) (aIn * (1 - aIn2))
  else if opLower = "atop".toList then
    write (inR * aIn2 + in2R * (1 - aIn)) (inG * aIn2 + in2G * (1 - aIn))
      (inB * aIn2 + in2B * (1 - aIn)) aIn2
  else if opLower = "xor".toList then
    write (inR * (1 - aIn2) + in2R * (1 - aIn)) (inG * (1 - aIn2) + in2G * (1 - aIn))
      (inB * (1 - aIn2) + in2B * (1 - aIn)) (aIn * (1 - aIn2) + aIn2 * (1 - aIn))
  else if opLower = "arithmetic".toList then
    let arith := fun (c1 c2 : ℚ) => cppClamp (k1 * c1 * c2 + k2 * c1 + k3 * c2 + k4) 0 1
    -- feComposite arithmetic is evaluated on premultiplied channels;
    -- empty input regions stay transparent (the "no k4 veil" guard).
    let hasCoverage := 0 < aIn ∨ 0 < aIn2
    if ¬hasCoverage then write 0 0 0 0
    else
      let outAlpha := arith aIn aIn2
      write (min (arith inR in2R) outAlpha) (min (arith inG in2G) outAlpha)
        (min (arith inB in2B) outAlpha) outAlpha
  else
    -- "over" default behavior for unhandled operators.
    write (inR + in2R * (1 - aIn)) (inG + in2G * (1 - aIn)) (inB + in2B * (1 - aIn))
      (aIn + aIn2 * (1 - aIn))

/-- `CompositeSurfaces` (PaintEngine.cpp lines 2066-2166).  The C++ loop
writes all four bytes of every pixel `i < w*h` of a zero-filled buffer, so
the output buffer is the concatenation of the per-pixel byte groups. -/
def compositeSurfaces (inS in2S : PixelSurface) (op : Str)
    (k1 k2 k3 k4 : ℚ) : PixelSurface :=
  { width := inS.width
    height := inS.height
    rgba := (List.range (inS.width * inS.height)).flatMap
      (compositePixelBytes inS in2S (lowerStr op) k1 k2 k3 k4) }

/-! ## feTurbulence noise (PaintEngine.cpp lines 2759-2858) -/

/-- `attributes.count(k) ? attributes.at(k) : dflt`. -/
def attrOrD (node : XmlNode) (key dflt : Str) : Str :=
  (assocFind node.attributes key).getD dflt

/-- `ParseNumberList` (PaintEngine.cpp lines 1919-1941); its loop is the
same scan as `GeometryEngine::ParsePointList`'s number phase. -/
def parseNumberList (text : Str) : List ℚ :=
  parsePointValuesFuel (text.length + 1) text

/-- 2^32 wrap (`uint32_t` arithmetic). -/
def u32 (n : ℕ) : ℕ := n % 4294967296

/-- `static_cast<uint32_t>` of a signed value. -/
def u32ofInt (x : ℤ) : ℕ := (x % 4294967296).toNat

/-- `SmoothStep` (PaintEngine.cpp lines 2759-2762). -/
def smoothStep (value : ℚ) : ℚ :=
  let t := cppClamp value 0 1
  t * t * (3 - 2 * t)

/-- `NoiseHash` (PaintEngine.cpp lines 2764-2771): a pure integer hash of
the lattice point and seed, mapped into `[-1, 1]`. -/
def noiseHash (x y seed : ℤ) : ℚ :=
  let n1 := u32 (u32ofInt x * 374761393)
  let n2 := Nat.xor n1 (u32 (u32ofInt y * 668265263))
  let n3 := Nat.xor n2 (u32 (u32ofInt seed * 2246822519))
  let n4 := u32 (Nat.xor n3 (n3 >>> 13) * 1274126177)
  let n5 := Nat.xor n4 (n4 >>> 16)
  ((n5 % 16777216 : ℕ) : ℚ) / (8388607 : ℚ) - 1

/-- `ValueNoise` (PaintEngine.cpp lines 2773-2789). -/
def valueNoise (x y : ℚ) (seed : ℤ) : ℚ :=
  let x0 : ℤ := ⌊x⌋
  let y0 : ℤ := ⌊y⌋
  let tx := smoothStep (x - (x0 : ℚ))
  let ty := smoothStep (y - (y0 : ℚ))
  let n00 := noiseHash x0 y0 seed
  let n10 := noiseHash (x0 + 1) y0 seed
  let n01 := noiseHash x0 (y0 + 1) seed
  let n11 := noiseHash (x0 + 1) (y0 + 1) seed
  let nx0 := n00 + (n10 - n00) * tx
  let nx1 := n01 + (n11 - n01) * tx
  nx0 + (nx1 - nx0) * ty

/-- `FractalNoise` (PaintEngine.cpp lines 2791-2816). -/
def fractalNoise (x y : ℚ) (seed : ℤ) (octaves : ℕ) (turbulence : Bool) : ℚ :=
  let st := (List.range octaves).foldl
    (fun (st : ℚ × ℚ × ℚ × ℚ) octave =>
      let value := st.1
      let amplitude := st.2.1
      let ampSum := st.2.2.1
      let freq := st.2.2.2
      let n0 := valueNoise (x * freq) (y * freq) (seed + octave * 31)
      let n := if turbulence then |n0| else n0
      (value + n * amplitude, amplitude / 2, ampSum + amplitude, freq * 2))
    (0, 1, 0, 1)
  let value := st.1
  let ampSum := st.2.2.1
  if ampSum ≤ 0 then 0
  else
    let v := value / ampSum
    let v2 := if ¬turbulence then v * (1/2) + 1/2 else v
    cppClamp v2 0 1

/-- One pixel of `ApplyTurbulenceFilter`: per-channel fractal noise from
distinct seed offsets, opaque alpha. -/
def turbulencePixelBytes (fx fy : ℚ) (seed : ℤ) (octaves : ℕ) (turbulence : Bool)
    (width : ℕ) (i : ℕ) : List ℕ :=
  let x := i % width
  let y := i / width
  let nx := (x : ℚ) * fx
  let ny := (y : ℚ) * fy
  let r := fractalNoise nx ny (seed + 11) octaves turbulence
  let g := fractalNoise nx ny (seed + 37) octaves turbulence
  let b := fractalNoise nx ny (seed + 73) octaves turbulence
  [(lroundQ (r * 255)).toNat, (lroundQ (g * 255)).toNat, (lroundQ (b * 255)).toNat, 255]

/-- `ApplyTurbulenceFilter` (PaintEngine.cpp lines 2818-2858): the source
surface contributes only its dimensions; the noise is a function of the
primitive's attributes and the pixel coordinates alone. -/
def applyTurbulenceFilter (source : PixelSurface) (primitive : XmlNode) : PixelSurface :=
  let output0 := makeTransparentSurface source.width source.height
  if source.width = 0 ∨ source.height = 0 then output0
  else
    let baseValues := parseNumberList (attrOrD primitive ("baseFrequency".toList) [])
    let fx0 := if baseValues.isEmpty then 0 else baseValues.getD 0 0
    let fy0 := if 1 < baseValues.length then baseValues.getD 1 0 else fx0
    let fx1 := max fx0 0
    let fy1 := max fy0 0
    if fx1 ≤ 0 ∧ fy1 ≤ 0 then output0
    else
      let fx := if fx1 ≤ 0 then fy1 else fx1
      let fy := if fy1 ≤ 0 then (if fx1 ≤ 0 then fy1 else fx1) else fy1
      let oc0 := lroundQ (parseDouble (attrOrD primitive ("numOctaves".toList) []) 1)
      let octaves : ℕ := (if oc0 < 1 then 1 else if 8 < oc0 then 8 else oc0).toNat
      let seed : ℤ := lroundQ (parseDouble (attrOrD primitive ("seed".toList) []) 0)
      let turbulence :=
        ¬(lowerStr (trimStr (attrOrD primitive ("type".toList) ("turbulence".toList)))
          = "fractalnoise".toList)
      { width := source.width
        height := source.height
        rgba := (List.range (source.width * source.height)).flatMap
          (turbulencePixelBytes fx fy seed octaves turbulence source.width) }

/-! ## Filter support validation (FilterGraph.cpp) -/

/-- The `kSupported` primitive set of `FilterGraph::ValidateFilterSupport`. -/
def kSupportedPrimitives : List Str :=
  [ "fegaussianblur".toList, "feoffset".toList, "feblend".toList,
    "fecolormatrix".toList, "fecomposite".toList, "fecomponenttransfer".toList,
    "feconvolvematrix".toList, "fediffuselighting".toList,
    "fedisplacementmap".toList, "feflood".toList, "femerge".toList,
    "femergenode".toList, "feimage".toList, "femorphology".toList,
    "fespecularlighting".toList, "fetile".toList, "feturbulence".toList ]

/-- The child scan of `TraverseFilterNodes` (FilterGraph.cpp lines 25-32):
the first unsupported primitive name under a `filter` element yields the
`kUnsupportedFeature` error naming it. -/
def firstUnsupportedPrimitive : List XmlNode → Option RenderError
  | [] => none
  | c :: cs =>
      let pn := localName c.name
      if pn ∈ kSupportedPrimitives then firstUnsupportedPrimitive cs
      else some { code := .kUnsupportedFeature
                  message := ("Unsupported filter primitive: ".toList) ++ pn }

mutual

/-- `TraverseFilterNodes` (FilterGraph.cpp lines 23-41). -/
def traverseFilterNodes (node : XmlNode) : Option RenderError :=
  let localErr :=
    if localName node.name = "filter".toList then
      firstUnsupportedPrimitive node.children
    else none
  match localErr with
  | some e => some e
  | none => traverseFilterNodesList node.children
termination_by sizeOf node
decreasing_by
  cases node
  simp [XmlNode.children]
  omega

/-- The child recursion of `TraverseFilterNodes`. -/
def traverseFilterNodesList (nodes : List XmlNode) : Option RenderError :=
  match nodes with
  | [] => none
  | c :: cs =>
      match traverseFilterNodes c with
      | some e => some e
      | none => traverseFilterNodesList cs
termination_by sizeOf nodes
decreasing_by
  all_goals simp
  all_goals omega

end

/-- `FilterGraph::ValidateFilterSupport` (FilterGraph.cpp lines 45-76):
`none` means the render proceeds; an unsupported primitive is fatal only
when strict mode is on and the fallback flag is off. -/
def validateFilterSupport (node : XmlNode) (flags : CompatFlags) : Option RenderError :=
  match traverseFilterNodes node with
  | none => none
  | some e =>
      if ¬flags.strict_mode ∨ flags.allow_unsupported_filter_fallback then none
      else some e

/-! ## Resource policy (ResourceResolver.cpp) -/

mutual

/-- `CollectURLsRecursive` (ResourceResolver.cpp lines 6-19). -/
def collectURLsRecursive (node : XmlNode) (urls : List Str) : List Str :=
  let urls1 :=
    match assocFind node.attributes ("href".toList) with
    | some v => urls ++ [v]
    | none => urls
  let urls2 :=
    match assocFind node.attributes ("xlink:href".toList) with
    | some v => urls1 ++ [v]
    | none => urls1
  collectURLsRecursiveList node.children urls2
termination_by sizeOf node
decreasing_by
  cases node
  simp [XmlNode.children]
  omega

/-- The child loop of `CollectURLsRecursive`. -/
def collectURLsRecursiveList (nodes : List XmlNode) (urls : List Str) : List Str :=
  match nodes with
  | [] => urls
  | c :: cs => collectURLsRecursiveList cs (collectURLsRecursive c urls)
termination_by sizeOf nodes
decreasing_by
  all_goals simp
  all_goals omega

end

/-- `IsRemoteURL` (ResourceResolver.cpp lines 21-23). -/
def isRemoteURL (value : Str) : Bool :=
  ("http://".toList).isPrefixOf value || ("https://".toList).isPrefixOf value

/-- `ResourceResolver::CollectExternalURLs`. -/
def collectExternalURLs (node : XmlNode) : List Str :=
  collectURLsRecursive node []

/-- `ResourceResolver::ValidatePolicy` (ResourceResolver.cpp lines
33-46). -/
def validatePolicy (urls : List Str) (options : RenderOptions) : Option RenderError :=
  if options.enable_external_resources then none
  else
    match urls.find? isRemoteURL with
    | some url =>
        some { code := .kExternalResourceBlocked
               message := ("External resource blocked: ".toList) ++ url }
    | none => none

/-- `SvgDom::Build` (SvgDom.cpp): the root must be `svg`. -/
def svgDomBuild (root : XmlNode) : Except RenderError XmlNode :=
  if root.name = "svg".toList then .ok root
  else .error { code := .kInvalidDocument, message := "Root element must be <svg>".toList }

/-! ## Path segments and the elliptical arc (PaintEngine.cpp lines 125-247) -/

/-- Path-construction calls issued against a `CGContext`. -/
inductive PathSeg where
  | moveTo (x y : ℚ)
  | lineTo (x y : ℚ)
  | curveTo (c1x c1y c2x c2y x y : ℚ)
  | quadTo (cx cy x y : ℚ)
  | closeSubpath
  | addRect (x y w h : ℚ)
  | addRoundedRect (x y w h radius : ℚ)
  | addEllipseInRect (x y w h : ℚ)
deriving DecidableEq

/-- `kArcEpsilon = 1e-9`. -/
def kArcEpsilon : ℚ := 1 / 1000000000

/-- `NearlyEqual` (PaintEngine.cpp lines 127-129). -/
def nearlyEqual (a b : ℚ) : Bool := |a - b| ≤ kArcEpsilon

/-- `SignedVectorAngle` (PaintEngine.cpp lines 131-133). -/
def signedVectorAngle (ops : MathOps) (ux uy vx vy : ℚ) : ℚ :=
  ops.atan2Q (ux * vy - uy * vx) (ux * vx + uy * vy)

/-- `MapUnitArcPoint` (PaintEngine.cpp lines 135-146). -/
def mapUnitArcPoint (ux uy cx cy rx ry cosPhi sinPhi : ℚ) : ℚ × ℚ :=
  (cx + rx * ux * cosPhi - ry * uy * sinPhi,
   cy + rx * ux * sinPhi + ry * uy * cosPhi)

/-- One 90-degree-or-less arc segment as a cubic (the body of the
`AddArcAsBezier` subdivision loop, PaintEngine.cpp lines 226-246). -/
def arcSegmentCurve (ops : MathOps) (cx cy rx ry cosPhi sinPhi startAngle segAngle : ℚ)
    (i : ℕ) : PathSeg :=
  let theta1 := startAngle + segAngle * i
  let theta2 := theta1 + segAngle
  let alpha := (4 / 3) * ops.tanQ ((theta2 - theta1) / 4)
  let cosT1 := ops.cosQ theta1
  let sinT1 := ops.sinQ theta1
  let cosT2 := ops.cosQ theta2
  let sinT2 := ops.sinQ theta2
  let cp1 := mapUnitArcPoint (cosT1 - alpha * sinT1) (sinT1 + alpha * cosT1) cx cy rx ry cosPhi sinPhi
  let cp2 := mapUnitArcPoint (cosT2 + alpha * sinT2) (sinT2 - alpha * cosT2) cx cy rx ry cosPhi sinPhi
  let ep := mapUnitArcPoint cosT2 sinT2 cx cy rx ry cosPhi sinPhi
  .curveTo cp1.1 cp1.2 cp2.1 cp2.2 ep.1 ep.2

/-- `AddArcAsBezier` (PaintEngine.cpp lines 148-247): endpoint
parameterization of the SVG elliptical arc, emitted as path segments. -/
def addArcAsBezier (ops : MathOps) (x1 y1 rx0 ry0 rotDeg : ℚ)
    (largeArc sweep : Bool) (x2 y2 : ℚ) : List PathSeg :=
  if nearlyEqual x1 x2 ∧ nearlyEqual y1 y2 then []
  else
    let rx := |rx0|
    let ry := |ry0|
    if rx < kArcEpsilon ∨ ry < kArcEpsilon then [.lineTo x2 y2]
    else
      let phi := rotDeg * mPI / 180
      let cosPhi := ops.cosQ phi
      let sinPhi := ops.sinQ phi
      let dx2 := (x1 - x2) / 2
      let dy2 := (y1 - y2) / 2
      let x1p := cosPhi * dx2 + sinPhi * dy2
      let y1p := -sinPhi * dx2 + cosPhi * dy2
      let x1p2 := x1p * x1p
      let y1p2 := y1p * y1p
      let lambda := x1p2 / (rx * rx) + y1p2 / (ry * ry)
      let scaled :=
        if 1 < lambda then
          let sc := ops.sqrtQ lambda
          (rx * sc, ry * sc)
        else (rx, ry)
      let rxs := scaled.1
      let rys := scaled.2
      let rx2 := rxs * rxs
      let ry2 := rys * rys
      let numerator := rx2 * ry2 - rx2 * y1p2 - ry2 * x1p2
      let denominator := rx2 * y1p2 + ry2 * x1p2
      if |denominator| < kArcEpsilon then [.lineTo x2 y2]
      else
        let centerScale0 := ops.sqrtQ (max 0 (numerator / denominator))
        let centerScale := if largeArc = sweep then -centerScale0 else centerScale0
        let cxp := centerScale * (rxs * y1p / rys)
        let cyp := centerScale * (-(rys * x1p) / rxs)
        let cx := cosPhi * cxp - sinPhi * cyp + (x1 + x2) / 2
        let cy := sinPhi * cxp + cosPhi * cyp + (y1 + y2) / 2
        let ux := (x1p - cxp) / rxs
        let uy := (y1p - cyp) / rys
        let vx := (-x1p - cxp) / rxs
        let vy := (-y1p - cyp) / rys
        let startAngle := ops.atan2Q uy ux
        let delta0 := signedVectorAngle ops ux uy vx vy
        let deltaAngle :=
          if ¬sweep ∧ 0 < delta0 then delta0 - 2 * mPI
          else if sweep ∧ delta0 < 0 then delta0 + 2 * mPI
          else delta0
        let segmentCount : ℤ := max 1 (Int.ceil (|deltaAngle| / (mPI / 2)))
        let segmentAngle := deltaAngle / (segmentCount : ℚ)
        (List.range segmentCount.toNat).map
          (arcSegmentCurve ops cx cy rxs rys cosPhi sinPhi startAngle segmentAngle)

/-! ## Path-data interpreter (PaintEngine.cpp `BuildPathFromData`,
lines 249-555) -/

/-- C locale `toupper` on ASCII. -/
def cToUpper (c : Char) : Char :=
  if 'a' ≤ c ∧ c ≤ 'z' then Char.ofNat (c.toNat - 32) else c

/-- C locale `islower` on ASCII. -/
def isCppLower (c : Char) : Bool := 'a' ≤ c && c ≤ 'z'

/-- `IsNumberStart` (PaintEngine.cpp lines 86-88). -/
def isNumberStart (c : Char) : Bool := isDig c || c = '-' || c = '+' || c = '.'

/-- `ParsePathNumber` (PaintEngine.cpp lines 101-115): skip delimiters,
convert; the skip is consumed even when the conversion fails. -/
def parsePathNumber (s : Str) : Option ℚ × Str :=
  let s1 := s.dropWhile isSpaceOrComma
  match strtodCore s1 with
  | some (v, rest) => (some v, rest)
  | none => (none, s1)

/-- `HasMorePathNumbers` (PaintEngine.cpp lines 117-123). -/
def hasMorePathNumbers (s : Str) : Bool :=
  let s1 := s.dropWhile isSpaceOrComma
  ¬s1.isEmpty && isNumberStart (headChar s1)

/-- A maximal chain `Parse && Parse && ...` of `k` path numbers: the
values when all convert, and the position after whatever was consumed. -/
def parseNGroup : ℕ → Str → Option (List ℚ) × Str
  | 0, s => (some [], s)
  | n + 1, s =>
      match parsePathNumber s with
      | (none, s2) => (none, s2)
      | (some v, s2) =>
          match parseNGroup n s2 with
          | (none, s3) => (none, s3)
          | (some vs, s3) => (some (v :: vs), s3)

/-- The cursor state of `BuildPathFromData` (current point, subpath start,
smooth-continuation trackers). -/
structure PathCursor where
  curX : ℚ := 0
  curY : ℚ := 0
  startX : ℚ := 0
  startY : ℚ := 0
  lastCubicX : ℚ := 0
  lastCubicY : ℚ := 0
  lastQuadX : ℚ := 0
  lastQuadY : ℚ := 0
  hasLastCubic : Bool := false
  hasLastQuad : Bool := false
deriving DecidableEq

/-- One `while (Parse...)` repetition loop of a path command: apply the
handler to each full coordinate group until a conversion fails.  Budgeted;
every successful group consumes at least one character. -/
def pathGroupLoop (k : ℕ)
    (apply : List ℚ → PathCursor → List PathSeg × PathCursor) :
    ℕ → Str → PathCursor → List PathSeg → List PathSeg × PathCursor × Str
  | 0, s, cur, segs => (segs, cur, s)
  | fuel + 1, s, cur, segs =>
      match parseNGroup k s with
      | (none, s2) => (segs, cur, s2)
      | (some vs, s2) =>
          let r := apply vs cur
          pathGroupLoop k apply fuel s2 r.2 (segs ++ r.1)

/-- The `M`-command continuation loop (guarded by `HasMorePathNumbers`). -/
def pathMoveRepLoop (apply : List ℚ → PathCursor → List PathSeg × PathCursor) :
    ℕ → Str → PathCursor → List PathSeg → List PathSeg × PathCursor × Str
  | 0, s, cur, segs => (segs, cur, s)
  | fuel + 1, s, cur, segs =>
      if ¬hasMorePathNumbers s then (segs, cur, s)
      else
        match parseNGroup 2 s with
        | (none, s2) => (segs, cur, s2)
        | (some vs, s2) =>
            let r := apply vs cur
            pathMoveRepLoop apply fuel s2 r.2 (segs ++ r.1)

/-- The `L` handler (also the trailing groups of `M`). -/
def applyPathLineTo (relative : Bool) (vs : List ℚ) (cur : PathCursor) :
    List PathSeg × PathCursor :=
  let x := if relative then vs.getD 0 0 + cur.curX else vs.getD 0 0
  let y := if relative then vs.getD 1 0 + cur.curY else vs.getD 1 0
  ([.lineTo x y], { cur with curX := x, curY := y })

/-- The `H` handler. -/
def applyPathH (relative : Bool) (vs : List ℚ) (cur : PathCursor) :
    List PathSeg × PathCursor :=
  let x := if relative then vs.getD 0 0 + cur.curX else vs.getD 0 0
  ([.lineTo x cur.curY], { cur with curX := x })

/-- The `V` handler. -/
def applyPathV (relative : Bool) (vs : List ℚ) (cur : PathCursor) :
    List PathSeg × PathCursor :=
  let y := if relative then vs.getD 0 0 + cur.curY else vs.getD 0 0
  ([.lineTo cur.curX y], { cur with curY := y })

/-- The `C` handler. -/
def applyPathC (relative : Bool) (vs : List ℚ) (cur : PathCursor) :
    List PathSeg × PathCursor :=
  let dx := if relative then cur.curX else 0
  let dy := if relative then cur.curY else 0
  let x1 := vs.getD 0 0 + dx
  let y1 := vs.getD 1 0 + dy
  let x2 := vs.getD 2 0 + dx
  let y2 := vs.getD 3 0 + dy
  let x := vs.getD 4 0 + dx
  let y := vs.getD 5 0 + dy
  ([.curveTo x1 y1 x2 y2 x y],
   { cur with curX := x, curY := y, lastCubicX := x2, lastCubicY := y2,
              hasLastCubic := true, hasLastQuad := false })

/-- The `S` handler (smooth cubic: reflect the previous control point). -/
def applyPathS (relative : Bool) (vs : List ℚ) (cur : PathCursor) :
    List PathSeg × PathCursor :=
  let x1 := if cur.hasLastCubic then 2 * cur.curX - cur.lastCubicX else cur.curX
  let y1 := if cur.hasLastCubic then 2 * cur.curY - cur.lastCubicY else cur.curY
  let dx := if relative then cur.curX else 0
  let dy := if relative then cur.curY else 0
  let x2 := vs.getD 0 0 + dx
  let y2 := vs.getD 1 0 + dy
  let x := vs.getD 2 0 + dx
  let y := vs.getD 3 0 + dy
  ([.curveTo x1 y1 x2 y2 x y],
   { cur with curX := x, curY := y, lastCubicX := x2, lastCubicY := y2,
              hasLastCubic := true, hasLastQuad := false })

/-- The `Q` handler. -/
def applyPathQ (relative : Bool) (vs : List ℚ) (cur : PathCursor) :
    List PathSeg × PathCursor :=
  let dx := if relative then cur.curX else 0
  let dy := if relative then cur.curY else 0
  let x1 := vs.getD 0 0 + dx
  let y1 := vs.getD 1 0 + dy
  let x := vs.getD 2 0 + dx
  let y := vs.getD 3 0 + dy
  ([.quadTo x1 y1 x y],
   { cur with curX := x, curY := y, lastQuadX := x1, lastQuadY := y1,
              hasLastQuad := true, hasLastCubic := false })

/-- The `T` handler (smooth quadratic). -/
def applyPathT (relative : Bool) (vs : List ℚ) (cur : PathCursor) :
    List PathSeg × PathCursor :=
  let x1 := if cur.hasLastQuad then 2 * cur.curX - cur.lastQuadX else cur.curX
  let y1 := if cur.hasLastQuad then 2 * cur.curY - cur.lastQuadY else cur.curY
  let dx := if relative then cur.curX else 0
  let dy := if relative then cur.curY else 0
  let x := vs.getD 0 0 + dx
  let y := vs.getD 1 0 + dy
  ([.quadTo x1 y1 x y],
   { cur with curX := x, curY := y, lastQuadX := x1, lastQuadY := y1,
              hasLastQuad := true, hasLastCubic := false })

/-- The `A` handler: delegate each group to `addArcAsBezier`. -/
def applyPathA (ops : MathOps) (relative : Bool) (vs : List ℚ) (cur : PathCursor) :
    List PathSeg × PathCursor :=
  let x := if relative then vs.getD 5 0 + cur.curX else vs.getD 5 0
  let y := if relative then vs.getD 6 0 + cur.curY else vs.getD 6 0
  (addArcAsBezier ops cur.curX cur.curY (vs.getD 0 0) (vs.getD 1 0) (vs.getD 2 0)
     (decide (0 < |vs.getD 3 0|)) (decide (0 < |vs.getD 4 0|)) x y,
   { cur with curX := x, curY := y })

/-- Clearing of the smooth-continuation trackers. -/
def clearSmooth (cur : PathCursor) : PathCursor :=
  { cur with hasLastCubic := false, hasLastQuad := false }

/-- Result of running one command branch of `BuildPathFromData`:
segments, cursor, remaining input, and whether the outer loop `break`s. -/
structure PathCmdResult where
  segs : List PathSeg
  cursor : PathCursor
  rest : Str
  stop : Bool

/-- One command branch of `BuildPathFromData` (PaintEngine.cpp lines
280-551), with the command character already consumed. -/
def runPathCommand (ops : MathOps) (command : Char) (s : Str) (cur : PathCursor) :
    PathCmdResult :=
  let relative := isCppLower command
  let upper := cToUpper command
  if upper = 'M' then
    match parseNGroup 2 s with
    | (none, s2) => { segs := [], cursor := cur, rest := s2, stop := true }
    | (some vs, s2) =>
        let x := if relative then vs.getD 0 0 + cur.curX else vs.getD 0 0
        let y := if relative then vs.getD 1 0 + cur.curY else vs.getD 1 0
        let cur2 := { cur with curX := x, curY := y, startX := x, startY := y }
        let r := pathMoveRepLoop (applyPathLineTo relative) (s2.length + 1) s2 cur2 []
        { segs := .moveTo x y :: r.1, cursor := clearSmooth r.2.1, rest := r.2.2, stop := false }
  else if upper = 'L' then
    let r := pathGroupLoop 2 (applyPathLineTo relative) (s.length + 1) s cur []
    { segs := r.1, cursor := clearSmooth r.2.1, rest := r.2.2, stop := false }
  else if upper = 'H' then
    let r := pathGroupLoop 1 (applyPathH relative) (s.length + 1) s cur []
    { segs := r.1, cursor := clearSmooth r.2.1, rest := r.2.2, stop := false }
  else if upper = 'V' then
    let r := pathGroupLoop 1 (applyPathV relative) (s.length + 1) s cur []
    { segs := r.1, cursor := clearSmooth r.2.1, rest := r.2.2, stop := false }
  else if upper = 'C' then
    let r := pathGroupLoop 6 (applyPathC relative) (s.length + 1) s cur []
    { segs := r.1, cursor := r.2.1, rest := r.2.2, stop := false }
  else if upper = 'S' then
    let r := pathGroupLoop 4 (applyPathS relative) (s.length + 1) s cur []
    { segs := r.1, cursor := r.2.1, rest := r.2.2, stop := false }
  else if upper = 'Q' then
    let r := pathGroupLoop 4 (applyPathQ relative) (s.length + 1) s cur []
    { segs := r.1, cursor := r.2.1, rest := r.2.2, stop := false }
  else if upper = 'T' then
    let r := pathGroupLoop 2 (applyPathT relative) (s.length + 1) s cur []
    { segs := r.1, cursor := r.2.1, rest := r.2.2, stop := false }
  else if upper = 'A' then
    let r := pathGroupLoop 7 (applyPathA ops relative) (s.length + 1) s cur []
    { segs := r.1, cursor := clearSmooth r.2.1, rest := r.2.2, stop := false }
  else if upper = 'Z' then
    { segs := [.closeSubpath]
      cursor := clearSmooth { cur with curX := cur.startX, curY := cur.startY }
      rest := s, stop := false }
  else
    -- line 551: `++index` for a letter with no branch.
    { segs := [], cursor := cur, rest := s.tail, stop := false }

/-- The outer loop of `BuildPathFromData` (PaintEngine.cpp lines 265-552),
budgeted.  The C++ loop does not advance on a non-alphabetic,
unconvertible character once a repeated command is active (an infinite
loop in the source on inputs such as `"L("`); exhausting the budget
models that hang by stopping with the segments emitted so far. -/
def buildPathLoop (ops : MathOps) :
    ℕ → Str → Char → PathCursor → List PathSeg → List PathSeg × PathCursor
  | 0, _, _, cur, segs => (segs, cur)
  | fuel + 1, s, command, cur, segs =>
      let s1 := s.dropWhile isSpaceOrComma
      if s1.isEmpty then (segs, cur)
      else
        let token := headChar s1
        if isCppAlpha token then
          let r := runPathCommand ops token s1.tail cur
          if r.stop then (segs ++ r.segs, r.cursor)
          else buildPathLoop ops fuel r.rest token r.cursor (segs ++ r.segs)
        else if command = Char.ofNat 0 then
          buildPathLoop ops fuel s1.tail command cur segs
        else
          let r := runPathCommand ops command s1 cur
          if r.stop then (segs ++ r.segs, r.cursor)
          else buildPathLoop ops fuel r.rest command r.cursor (segs ++ r.segs)

/-- `BuildPathFromData` (PaintEngine.cpp lines 249-555). -/
def buildPathFromData (ops : MathOps) (pathData : Str) : List PathSeg :=
  (buildPathLoop ops (pathData.length + 1) pathData (Char.ofNat 0) {} []).1

/-! ## Shape geometry (GeometryEngine.cpp) -/

/-- `ShapeType` (GeometryEngine.hpp, with the `kImage` variant used by
GeometryEngine.cpp and PaintEngine.cpp). -/
inductive ShapeType where
  | kUnknown
  | kRect
  | kCircle
  | kEllipse
  | kLine
  | kPath
  | kPolygon
  | kPolyline
  | kText
  | kImage
deriving DecidableEq

/-- `ShapeGeometry` (GeometryEngine.hpp). -/
structure ShapeGeometry where
  type : ShapeType := .kUnknown
  x : ℚ := 0
  y : ℚ := 0
  width : ℚ := 0
  height : ℚ := 0
  rx : ℚ := 0
  ry : ℚ := 0
  points : List (ℚ × ℚ) := []
  path_data : Str := []
  text : Str := []
  href : Str := []

/-- `GeometryEngine::Build` (GeometryEngine.cpp lines 157-255): the
viewport dimensions come from the `GeometryEngine` constructor. -/
def geometryBuild (ops : MathOps) (vw vh : ℚ) (node : XmlNode) : Option ShapeGeometry :=
  let lenAttr := fun (key : Str) (fallback : ℚ) (axis : LengthAxis) =>
    parseSVGLengthAttr ops node.attributes key fallback axis vw vh
  if node.name = "rect".toList then
    some { type := .kRect
           x := lenAttr ("x".toList) 0 .x, y := lenAttr ("y".toList) 0 .y
           width := lenAttr ("width".toList) 0 .x, height := lenAttr ("height".toList) 0 .y
           rx := lenAttr ("rx".toList) 0 .x, ry := lenAttr ("ry".toList) 0 .y }
  else if node.name = "circle".toList then
    some { type := .kCircle
           x := lenAttr ("cx".toList) 0 .x, y := lenAttr ("cy".toList) 0 .y
           rx := lenAttr ("r".toList) 0 .diagonal }
  else if node.name = "ellipse".toList then
    some { type := .kEllipse
           x := lenAttr ("cx".toList) 0 .x, y := lenAttr ("cy".toList) 0 .y
           rx := lenAttr ("rx".toList) 0 .x, ry := lenAttr ("ry".toList) 0 .y }
  else if node.name = "line".toList then
    some { type := .kLine
           points := [ (lenAttr ("x1".toList) 0 .x, lenAttr ("y1".toList) 0 .y)
                     , (lenAttr ("x2".toList) 0 .x, lenAttr ("y2".toList) 0 .y) ] }
  else if node.name = "polygon".toList then
    some { type := .kPolygon
           points := match assocFind node.attributes ("points".toList) with
                     | some v => parsePointList v
                     | none => [] }
  else if node.name = "polyline".toList then
    some { type := .kPolyline
           points := match assocFind node.attributes ("points".toList) with
                     | some v => parsePointList v
                     | none => [] }
  else if node.name = "path".toList then
    some { type := .kPath
           path_data := match assocFind node.attributes ("d".toList) with
                        | some v => v
                        | none => [] }
  else if node.name = "text".toList then
    some { type := .kText
           x := lenAttr ("x".toList) 0 .x, y := lenAttr ("y".toList) 0 .y
           text := node.text }
  else if node.name = "image".toList then
    some { type := .kImage
           x := lenAttr ("x".toList) 0 .x, y := lenAttr ("y".toList) 0 .y
           width := lenAttr ("width".toList) 0 .x, height := lenAttr ("height".toList) 0 .y
           href := match assocFind node.attributes ("href".toList) with
                   | some v => v
                   | none =>
                       match assocFind node.attributes ("xlink:href".toList) with
                       | some v => v
                       | none => [] }
  else none

/-! ## Style resolution (StyleResolver.cpp) -/

/-- `ResolvedStyle` (StyleResolver.hpp), with its C++ default member
values. -/
structure ResolvedStyle where
  color : Color := {}
  fill : Color := {}
  stroke : Color := {}
  fill_paint : Str := []
  stroke_paint : Str := []
  color_paint : Str := []
  fill_opacity : ℚ := 1
  stroke_opacity : ℚ := 1
  stroke_width : ℚ := 1
  opacity : ℚ := 1
  fill_rule : Str := "nonzero".toList
  stroke_line_cap : Str := "butt".toList
  stroke_line_join : Str := "miter".toList
  stroke_miter_limit : ℚ := 4
  stroke_dasharray : List ℚ := []
  stroke_dashoffset : ℚ := 0
  font_family : Str := []
  font_size : ℚ := 0
  font_weight : ℤ := 400
  font_style : Str := "normal".toList
  text_decoration : Str := "none".toList
  letter_spacing : ℚ := 0
  word_spacing : ℚ := 0
  text_anchor : Str := "start".toList
deriving DecidableEq

/-- `ParseFloat` (StyleResolver.cpp lines 30-46). -/
def styleParseFloat (value : Str) (fallback : ℚ) : ℚ :=
  let t := trimStr value
  if t.isEmpty then fallback
  else
    match strtodStr t with
    | none => fallback
    | some (v, rest) => if headChar rest = '%' then v / 100 else v

/-- `ParseLength` (StyleResolver.cpp lines 73-96): lengths against a
percent basis, with `em`/`ex` support. -/
def styleParseLength (value : Str) (fallback percentBasis : ℚ) : ℚ :=
  let t := trimStr value
  if t.isEmpty then fallback
  else
    match strtodStr t with
    | none => fallback
    | some (v, rest) =>
        let unit := lowerStr (trimStr rest)
        if unit = "%".toList then v * (1/100) * percentBasis
        else if unit = "em".toList then v * percentBasis
        else if unit = "ex".toList then v * percentBasis * (1/2)
        else convertLengthToPixels v unit

/-- `ParseFloatList` (StyleResolver.cpp lines 160-192): scan nonnegative
numbers, then duplicate an odd-length list. -/
def parseFloatList (value : Str) : List ℚ :=
  let t := lowerStr (trimStr value)
  if t.isEmpty ∨ t = "none".toList then []
  else
    let out := (parsePointValuesFuel (t.length + 1) t).map (fun v => max v 0)
    if out.length % 2 = 1 then out ++ out else out

/-- `ParseFontWeight` (StyleResolver.cpp lines 322-342). -/
def parseFontWeight (value : Str) (fallback : ℤ) : ℤ :=
  let t := lowerStr (trimStr value)
  if t.isEmpty then fallback
  else if t = "normal".toList then 400
  else if t = "bold".toList ∨ t = "bolder".toList then 700
  else if t = "lighter".toList then 300
  else
    match parseCssFloat t with
    | none => fallback
    | some v => truncQ (cppClamp v 1 1000)

/-- `SplitWhitespacePreservingQuotes` (StyleResolver.cpp lines 344-374). -/
def splitWhitespacePreservingQuotes (value : Str) : List Str :=
  let fin := value.foldl
    (fun (acc : List Str × Str × Char) c =>
      let tokens := acc.1
      let current := acc.2.1
      let quote := acc.2.2
      if ¬(quote = Char.ofNat 0) then
        (tokens, current ++ [c], if c = quote then Char.ofNat 0 else quote)
      else if c = '"' ∨ c = '\x27' then
        (tokens, current ++ [c], c)
      else if isCppSpace c then
        (if current.isEmpty then tokens else tokens ++ [current], [], quote)
      else
        (tokens, current ++ [c], quote))
    ([], [], Char.ofNat 0)
  if fin.2.1.isEmpty then fin.1 else fin.1 ++ [fin.2.1]

/-- `FontShorthand` (StyleResolver.cpp lines 376-382). -/
structure FontShorthand where
  has_size : Bool := false
  size : ℚ := 0
  family : Str := []
  style : Option Str := none
  weight : Option ℤ := none

/-- `ParseFontShorthand` (StyleResolver.cpp lines 384-441). -/
def parseFontShorthand (value : Str) (inheritedSize : ℚ) : Option FontShorthand :=
  let trimmed := trimStr value
  if trimmed.isEmpty then none
  else
    let tokens := splitWhitespacePreservingQuotes trimmed
    if tokens.isEmpty then none
    else
      let sizeScan := (List.range tokens.length).findIdx?
        (fun index =>
          let candidate0 := tokens.getD index []
          let candidate :=
            match candidate0.findIdx? (· = '/') with
            | some slash => candidate0.take slash
            | none => candidate0
          decide (0 < styleParseLength candidate (-1) inheritedSize))
      match sizeScan with
      | none => none
      | some sizeIndex =>
          let sizeTok0 := tokens.getD sizeIndex []
          let sizeTok :=
            match sizeTok0.findIdx? (· = '/') with
            | some slash => sizeTok0.take slash
            | none => sizeTok0
          let size := styleParseLength sizeTok (-1) inheritedSize
          if sizeIndex + 1 ≥ tokens.length then none
          else
            let pre := (List.range sizeIndex).foldl
              (fun (acc : Option Str × Option ℤ) index =>
                let token := lowerStr (trimStr (tokens.getD index []))
                if token = "italic".toList ∨ token = "oblique".toList ∨
                    token = "normal".toList then
                  (some token, acc.2)
                else
                  let pw := parseFontWeight token (-1)
                  if 0 < pw then (acc.1, some pw) else acc)
              (none, none)
            let family := trimStr (List.intercalate [' ']
              ((tokens.drop (sizeIndex + 1))))
            if family.isEmpty then none
            else some { has_size := true, size := size, family := family
                        style := pre.1, weight := pre.2 }

/-- The root defaults of `StyleResolver::Resolve` (StyleResolver.cpp
lines 517-565). -/
def rootResolvedStyle (options : RenderOptions) : ResolvedStyle :=
  { color := { is_none := false, is_valid := true, r := 0, g := 0, b := 0, a := 1 }
    fill := { is_none := false, is_valid := true, r := 0, g := 0, b := 0, a := 1 }
    stroke := { is_none := true, is_valid := true, r := 0, g := 0, b := 0, a := 1 }
    color_paint := "black".toList
    fill_paint := "black".toList
    stroke_paint := "none".toList
    fill_opacity := 1, stroke_opacity := 1, stroke_width := 1, opacity := 1
    fill_rule := "nonzero".toList
    stroke_line_cap := "butt".toList
    stroke_line_join := "miter".toList
    stroke_miter_limit := 4, stroke_dashoffset := 0, stroke_dasharray := []
    font_family := options.default_font_family
    font_size := options.default_font_size
    font_weight := 400
    font_style := "normal".toList
    text_decoration := "none".toList
    letter_spacing := 0, word_spacing := 0
    text_anchor := "start".toList }

/-- The property lookup of `StyleResolver::Resolve` (inline style first,
then the presentation attribute). -/
def styleReadValue (node : XmlNode) (inl : List (Str × Str)) (key : Str) : Option Str :=
  match assocFind inl key with
  | some v => some v
  | none => assocFind node.attributes key

/-- The `color`/`fill`/`stroke` paint steps of `StyleResolver::Resolve`. -/
def stylePaintSteps (r : Str → Option Str) (base : ResolvedStyle) : ResolvedStyle :=
  let st1 :=
    match r ("color".toList) with
    | some cv =>
        let p := parseColor cv
        { base with color_paint := trimStr cv
                    color := if p.is_valid ∧ ¬p.is_none then p else base.color }
    | none => base
  let st2 :=
    match r ("fill".toList) with
    | some fv => { st1 with fill_paint := trimStr fv, fill := parseColor fv }
    | none => st1
  match r ("stroke".toList) with
  | some sv => { st2 with stroke_paint := trimStr sv, stroke := parseColor sv }
  | none => st2

/-- The opacity and stroke-width steps of `StyleResolver::Resolve`
(stroke-width resolves against the font size inherited before any `font`
property of this node is applied). -/
def styleOpacitySteps (r : Str → Option Str) (st3 : ResolvedStyle) : ResolvedStyle :=
  let st4 :=
    match r ("fill-opacity".toList) with
    | some v => { st3 with fill_opacity := styleParseFloat v st3.fill_opacity }
    | none => st3
  let st5 :=
    match r ("stroke-opacity".toList) with
    | some v => { st4 with stroke_opacity := styleParseFloat v st4.stroke_opacity }
    | none => st4
  let st6 :=
    match r ("stroke-width".toList) with
    | some v => { st5 with stroke_width := styleParseLength v st5.stroke_width st5.font_size }
    | none => st5
  match r ("opacity".toList) with
  | some v => { st6 with opacity := styleParseFloat v st6.opacity }
  | none => st6

/-- The fill-rule and stroke-shape steps of `StyleResolver::Resolve`. -/
def styleStrokeShapeSteps (r : Str → Option Str) (st7 : ResolvedStyle) : ResolvedStyle :=
  let st8 :=
    match r ("fill-rule".toList) with
    | some v => { st7 with fill_rule := lowerStr (trimStr v) }
    | none => st7
  let st9 :=
    match r ("stroke-linejoin".toList) with
    | some v => { st8 with stroke_line_join := lowerStr (trimStr v) }
    | none => st8
  let st10 :=
    match r ("stroke-linecap".toList) with
    | some v => { st9 with stroke_line_cap := lowerStr (trimStr v) }
    | none => st9
  let st11 :=
    match r ("stroke-miterlimit".toList) with
    | some v => { st10 with stroke_miter_limit := styleParseFloat v st10.stroke_miter_limit }
    | none => st10
  let st12 :=
    match r ("stroke-dasharray".toList) with
    | some v => { st11 with stroke_dasharray := parseFloatList v }
    | none => st11
  match r ("stroke-dashoffset".toList) with
  | some v => { st12 with stroke_dashoffset := styleParseLength v st12.stroke_dashoffset st12.font_size }
  | none => st12

/-- The `font` shorthand step of `StyleResolver::Resolve`. -/
def styleFontShorthandStep (r : Str → Option Str) (st14 : ResolvedStyle) : ResolvedStyle :=
  match r ("font".toList) with
  | some v =>
      match parseFontShorthand v st14.font_size with
      | some parsed =>
          let a := { st14 with font_size := parsed.size, font_family := parsed.family }
          let b := match parsed.style with
                   | some sv => { a with font_style := sv }
                   | none => a
          match parsed.weight with
          | some w => { b with font_weight := w }
          | none => b
      | none => st14
  | none => st14

/-- The font steps of `StyleResolver::Resolve`. -/
def styleFontSteps (r : Str → Option Str) (st13 : ResolvedStyle) : ResolvedStyle :=
  let st14 :=
    match r ("font-family".toList) with
    | some v => { st13 with font_family := v }
    | none => st13
  let st15 := styleFontShorthandStep r st14
  let st16 :=
    match r ("font-size".toList) with
    | some v => { st15 with font_size := styleParseLength v st15.font_size st15.font_size }
    | none => st15
  let st17 :=
    match r ("font-weight".toList) with
    | some v => { st16 with font_weight := parseFontWeight v st16.font_weight }
    | none => st16
  match r ("font-style".toList) with
  | some v =>
      let parsed := lowerStr (trimStr v)
      if parsed = "normal".toList ∨ parsed = "italic".toList ∨
          parsed = "oblique".toList then
        { st17 with font_style := parsed }
      else st17
  | none => st17

/-- The text steps of `StyleResolver::Resolve`. -/
def styleTextSteps (r : Str → Option Str) (st18 : ResolvedStyle) : ResolvedStyle :=
  let st19 :=
    match r ("text-decoration".toList) with
    | some v =>
        let parsed := lowerStr (trimStr v)
        { st18 with text_decoration := if parsed.isEmpty then "none".toList else parsed }
    | none => st18
  let st20 :=
    match r ("letter-spacing".toList) with
    | some v =>
        let parsed := lowerStr (trimStr v)
        if parsed = "normal".toList then { st19 with letter_spacing := 0 }
        else { st19 with letter_spacing := styleParseLength v st19.letter_spacing st19.font_size }
    | none => st19
  let st21 :=
    match r ("word-spacing".toList) with
    | some v =>
        let parsed := lowerStr (trimStr v)
        if parsed = "normal".toList then { st20 with word_spacing := 0 }
        else { st20 with word_spacing := styleParseLength v st20.word_spacing st20.font_size }
    | none => st20
  match r ("text-anchor".toList) with
  | some v =>
      let anchor := lowerStr (trimStr v)
      if anchor = "start".toList ∨ anchor = "middle".toList ∨ anchor = "end".toList then
        { st21 with text_anchor := anchor }
      else st21
  | none => st21

/-- The final clamp and `currentColor` steps of `StyleResolver::Resolve`. -/
def styleFinishSteps (hasLocalFill hasLocalStroke : Bool) (st22 : ResolvedStyle) : ResolvedStyle :=
  let st23 := { st22 with fill_opacity := cppClamp st22.fill_opacity 0 1
                          stroke_opacity := cppClamp st22.stroke_opacity 0 1
                          opacity := cppClamp st22.opacity 0 1 }
  let st24 :=
    if hasLocalFill ∧ lowerStr (trimStr st23.fill_paint) = "currentcolor".toList then
      { st23 with fill := { st23.color with is_none := false, is_valid := true } }
    else st23
  if hasLocalStroke ∧ lowerStr (trimStr st24.stroke_paint) = "currentcolor".toList then
    { st24 with stroke := { st24.color with is_none := false, is_valid := true } }
  else st24

/-- `StyleResolver::Resolve` (StyleResolver.cpp lines 512-710), at the
engine's call sites (no matched CSS properties), assembled from the step
groups above in the source's property order. -/
def styleResolve (node : XmlNode) (parent : Option ResolvedStyle)
    (options : RenderOptions) : ResolvedStyle :=
  let base :=
    match parent with
    | some p => p
    | none => rootResolvedStyle options
  let inl := nodeInlineStyle node
  let r := styleReadValue node inl
  let hasLocalFill := (r ("fill".toList)).isSome
  let hasLocalStroke := (r ("stroke".toList)).isSome
  styleFinishSteps hasLocalFill hasLocalStroke
    (styleTextSteps r
      (styleFontSteps r
        (styleStrokeShapeSteps r
          (styleOpacitySteps r
            (stylePaintSteps r base)))))

/-! ## The raster-backend trace model

CoreGraphics is an external collaborator of the core (not reimplemented by
the repository).  A `CGContext` is modelled as the sequence of calls issued
against it plus the current-path state (the one piece of context state the
engine reads back, via `CGContextCopyPath`); reading pixels out of a bitmap
context (`CGBitmapContextGetData`, `CGBitmapContextCreateImage`) is an
oracle from the call trace to a pixel surface. -/

/-- `CGPathDrawingMode`. -/
inductive DrawMode where
  | fill
  | eoFill
  | stroke
  | fillStroke
deriving DecidableEq

/-- Calls issued against a `CGContext` (or derived drawing objects). -/
inductive Ev where
  | saveGState
  | restoreGState
  | concatCTM (m : Affine)
  | translateCTM (x y : ℚ)
  | scaleCTM (x y : ℚ)
  | setAlpha (a : ℚ)
  | beginPath
  | pathSeg (seg : PathSeg)
  | addPath (p : List PathSeg)
  | clip
  | setLineWidth (w : ℚ)
  | setLineCap (cap : ℕ)
  | setLineJoin (join : ℕ)
  | setMiterLimit (m : ℚ)
  | setLineDash (offset : ℚ) (pattern : List ℚ)
  | setFillColor (r g b a : ℚ)
  | setStrokeColor (r g b a : ℚ)
  | drawPath (mode : DrawMode)
  | fillRect (x y w h : ℚ)
  | drawLinearGradient (locations : List ℚ) (components : List ℚ) (sx sy ex ey : ℚ)
  | drawRadialGradient (locations : List ℚ) (components : List ℚ) (fx fy cx cy radius : ℚ)
  | drawImageSurface (img : PixelSurface) (x y w h : ℚ)
  | drawImageHref (href : Str) (icc : Bool) (x y w h : ℚ)
  | setTextMatrix (m : Affine)
  | setTextPosition (x y : ℚ)
  | drawTextRun (text : Str) (fontFamily : Str) (fontSize : ℚ) (bold : Bool) (r g b a : ℚ)
  | legacyPieChart (regions : List (Str × ℚ)) (opacity : ℚ)

/-- Which calls put ink on a surface. -/
def isDrawEv : Ev → Bool
  | .drawPath _ => true
  | .fillRect .. => true
  | .drawLinearGradient .. => true
  | .drawRadialGradient .. => true
  | .drawImageSurface .. => true
  | .drawImageHref .. => true
  | .drawTextRun .. => true
  | .legacyPieChart .. => true
  | _ => false

/-- Effect of one call on the context's current path (`CGContextClip` and
`CGContextDrawPath` consume the path; the gstate stack does not save it).
The legacy pie chart's slice loop ends each region with a consuming
`CGContextDrawPath`, leaving the path cleared. -/
def applyEvToPath (path : List PathSeg) : Ev → List PathSeg
  | .beginPath => []
  | .clip => []
  | .drawPath _ => []
  | .pathSeg seg => path ++ [seg]
  | .addPath p => path ++ p
  | .legacyPieChart _ _ => []
  | _ => path

/-- The mutable state threaded through `PaintNode`: active-use ids,
active-pattern ids, the render error, and the current context's path.
`fuelOut` records that the explicit recursion fuel of the embedding ran
out somewhere (the C++ recursion is unbounded and can genuinely diverge);
no theorem about a terminating path depends on it. -/
structure PaintSt where
  useIds : List Str := []
  patIds : List Str := []
  err : RenderError := {}
  path : List PathSeg := []
  fuelOut : Bool := false

/-- `std::set::insert`. -/
def setInsert (l : List Str) (x : Str) : List Str :=
  if x ∈ l then l else x :: l

/-- `std::set::erase`. -/
def setErase (l : List Str) (x : Str) : List Str :=
  l.filter (fun y => ¬(y = x))

/-- Record a run of calls in the state (path bookkeeping). -/
def pushEvs (st : PaintSt) (evs : List Ev) : PaintSt :=
  { st with path := evs.foldl applyEvToPath st.path }

/-- `LineJoinFromStyle` (PaintEngine.cpp lines 1608-1617); 0 = miter,
1 = round, 2 = bevel. -/
def lineJoinFromStyle (joinStyle : Str) : ℕ :=
  let l := lowerStr joinStyle
  if l = "round".toList then 1
  else if l = "bevel".toList then 2
  else 0

/-- `LineCapFromStyle` (PaintEngine.cpp); 0 = butt, 1 = round,
2 = square. -/
def lineCapFromStyle (capStyle : Str) : ℕ :=
  let l := lowerStr capStyle
  if l = "round".toList then 1
  else if l = "square".toList then 2
  else 0

/-- `PixelBounds` (PaintEngine.cpp). -/
structure PixelBounds where
  min_x : ℕ := 0
  min_y : ℕ := 0
  max_x : ℕ := 0
  max_y : ℕ := 0
deriving DecidableEq

/-- `ComputeNonTransparentBounds` (PaintEngine.cpp lines 1744-1786). -/
def computeNonTransparentBounds (surface : PixelSurface) : PixelBounds :=
  let scan := (List.range (surface.height * surface.width)).foldl
    (fun (acc : Option PixelBounds) i =>
      let y := i / surface.width
      let x := i % surface.width
      if surface.rgba.getD ((y * surface.width + x) * 4 + 3) 0 = 0 then acc
      else
        match acc with
        | none => some { min_x := x, max_x := x, min_y := y, max_y := y }
        | some b => some { min_x := min b.min_x x, max_x := max b.max_x x
                           min_y := min b.min_y y, max_y := max b.max_y y })
    none
  match scan with
  | some b => b
  | none =>
      { min_x := 0, min_y := 0
        max_x := if 0 < surface.width then surface.width - 1 else 0
        max_y := if 0 < surface.height then surface.height - 1 else 0 }

/-- The `SourceAlpha` construction of `ExecuteBasicFilterPrimitives`
(PaintEngine.cpp lines 2989-2998): color channels zeroed, alpha kept. -/
def sourceAlphaOf (s : PixelSurface) : PixelSurface :=
  { s with rgba := ((List.range (s.width * s.height)).flatMap
      (fun i => [0, 0, 0, s.rgba.getD (i * 4 + 3) 0])) }

/-- `CreateImageFromSurface` (PaintEngine.cpp lines 3182-3202): null for
an empty surface, otherwise an image with the surface's pixels (bitmap
creation is modelled as succeeding). -/
def createImageFromSurface (surface : PixelSurface) : Option PixelSurface :=
  if surface.width = 0 ∨ surface.height = 0 ∨ surface.rgba.isEmpty then none
  else some surface

/-- The row-copy out of a bitmap context: exactly `w*h*4` bytes. -/
def normalizeSurfaceBytes (raw : List ℕ) (w h : ℕ) : List ℕ :=
  (raw ++ List.replicate (w * h * 4) 0).take (w * h * 4)

/-- Decimal print of a `size_t` (`std::to_string`). -/
def natToStr (n : ℕ) : Str := (toString n).toList

/-- The filter-primitive pixel kernels whose channel math involves
transcendental color-space conversion (sRGB gamma, `exp`, `pow`); they are
parameters of the embedding - the source functions of PaintEngine.cpp they
stand for are named field by field. -/
structure FilterKernels where
  /-- `MakeFloodSurface`. -/
  makeFloodSurface : ℕ → ℕ → XmlNode → PixelBounds → PixelSurface
  /-- `ApplyGaussianBlurFilter`. -/
  applyGaussianBlurFilter : PixelSurface → ℚ → ℚ → PixelSurface
  /-- `ApplyOffsetFilter`. -/
  applyOffsetFilter : PixelSurface → ℚ → ℚ → PixelSurface
  /-- `RenderImageFilterPrimitive`. -/
  renderImageFilterPrimitive : XmlNode → PixelSurface → PixelSurface
  /-- `ApplyColorMatrix`. -/
  applyColorMatrix : PixelSurface → XmlNode → PixelSurface
  /-- `ApplyComponentTransferFilter`. -/
  applyComponentTransferFilter : PixelSurface → XmlNode → PixelSurface
  /-- `ApplyConvolveMatrixFilter`. -/
  applyConvolveMatrixFilter : PixelSurface → XmlNode → PixelSurface
  /-- `BlendSurfaces`. -/
  blendSurfaces : PixelSurface → PixelSurface → Str → PixelSurface
  /-- `ApplyMorphologyFilter`. -/
  applyMorphologyFilter : PixelSurface → XmlNode → PixelSurface
  /-- `ApplyDisplacementMapFilter`. -/
  applyDisplacementMapFilter : PixelSurface → PixelSurface → XmlNode → PixelSurface
  /-- `ApplyTileFilter`. -/
  applyTileFilter : PixelSurface → XmlNode → PixelSurface
  /-- `ApplyLightingFilter`. -/
  applyLightingFilter : PixelSurface → XmlNode → Bool → PixelSurface

/-- The external collaborators of the paint engine: `<cmath>`
transcendentals, the CoreGraphics/CoreText backend oracles, image loading,
and the parameterized filter kernels.  Every theorem about the traversal
holds for all instances. -/
structure ExternalModel where
  ops : MathOps
  /-- `CGBitmapContextGetData` / `CGBitmapContextCreateImage` after
  painting a trace into a `w × h` bitmap. -/
  rasterize : List Ev → ℕ → ℕ → PixelSurface
  /-- `CGPathGetPathBoundingBox`, as `(x, y, w, h)`. -/
  pathBoundingBox : List PathSeg → ℚ × ℚ × ℚ × ℚ
  /-- `CTLineGetTypographicBounds`. -/
  textWidth : Str → ℚ
  /-- `LoadImageFromHref`: decoded image dimensions, or `none`. -/
  loadImage : Str → Option (ℕ × ℕ)
  /-- Whether `CreateICCColorSpaceFromHref` plus
  `ConvertImageFromAssignedICCProfile` produce a converted image. -/
  iccConvertOk : Str → Bool
  /-- The slice-drawing body of `MaybeRenderNamespaceBusinessPieChart`
  runs against the backend only; the model records the trigger and its
  data as one call. -/
  contextOk : Bool
  kernels : FilterKernels

/-- The read-only per-render environment of `PaintNode`. -/
structure PaintEnv where
  M : ExternalModel
  gradients : List (Str × GradientDefinition)
  patterns : List (Str × PatternDefinition)
  idMap : List (Str × XmlNode)
  colorProfiles : List (Str × Str)
  options : RenderOptions

/-! ## preserveAspectRatio and the viewBox transform (PaintEngine.cpp
lines 743-861) -/

/-- One `stringstream >> std::string` extraction: skip whitespace, take
the maximal non-whitespace run; `none` when the stream is exhausted. -/
def readWord (s : Str) : Option (Str × Str) :=
  let t := s.dropWhile isCppSpace
  if t.isEmpty then none
  else some (t.takeWhile (fun c => !isCppSpace c), t.dropWhile (fun c => !isCppSpace c))

/-- A `parser >> a >> b` extraction pair (a failed extraction leaves the
previous value in place and fails the later extraction too). -/
def readTwoWords (s : Str) (a0 b0 : Str) : Str × Str × Str :=
  match readWord s with
  | none => (a0, b0, s)
  | some (w, r) =>
      match readWord r with
      | none => (w, b0, r)
      | some (w2, r2) => (w, w2, r2)

/-- `std::string::find(needle) != npos`. -/
def containsSub (hay needle : Str) : Bool :=
  (List.range (hay.length + 1)).any (fun i => needle.isPrefixOf (hay.drop i))

/-- `ComputeViewBoxTransform` (PaintEngine.cpp lines 743-812). -/
def computeViewBoxTransform (viewportWidth viewportHeight viewBoxX viewBoxY
    viewBoxWidth viewBoxHeight : ℚ) (preserveRaw : Str) : Affine :=
  let scaleX := viewportWidth / viewBoxWidth
  let scaleY := viewportHeight / viewBoxHeight
  let pv0 := lowerStr (trimStr preserveRaw)
  let preserveValue := if pv0.isEmpty then "xmidymid meet".toList else pv0
  if preserveValue = "none".toList then
    { a := scaleX, b := 0, c := 0, d := scaleY
      tx := -viewBoxX * scaleX, ty := -viewBoxY * scaleY }
  else
    let r1 := readTwoWords preserveValue ("xmidymid".toList) ("meet".toList)
    let r2 := if r1.1 = "defer".toList then readTwoWords r1.2.2 r1.1 r1.2.1 else r1
    let align := if r2.1.isEmpty then "xmidymid".toList else r2.1
    let meetOrSlice := if ¬(r2.2.1 = "slice".toList) then "meet".toList else r2.2.1
    let uniformScale :=
      if meetOrSlice = "slice".toList then max scaleX scaleY else min scaleX scaleY
    let contentWidth := viewBoxWidth * uniformScale
    let contentHeight := viewBoxHeight * uniformScale
    let extraX := viewportWidth - contentWidth
    let extraY := viewportHeight - contentHeight
    let alignX :=
      if containsSub align ("xmid".toList) then extraX * (1/2)
      else if containsSub align ("xmax".toList) then extraX
      else 0
    let alignY :=
      if containsSub align ("ymid".toList) then extraY * (1/2)
      else if containsSub align ("ymax".toList) then extraY
      else 0
    { a := uniformScale, b := 0, c := 0, d := uniformScale
      tx := alignX - viewBoxX * uniformScale, ty := alignY - viewBoxY * uniformScale }

/-- `PreserveAspectRatioSpec` (PaintEngine.cpp lines 814-819). -/
structure PreserveAspectRatioSpec where
  none : Bool := false
  slice : Bool := false
  align_x : ℚ := 1/2
  align_y : ℚ := 1/2
deriving DecidableEq

/-- `ParsePreserveAspectRatioSpec` (PaintEngine.cpp lines 821-861). -/
def parsePreserveAspectRatioSpec (preserveRaw : Str) : PreserveAspectRatioSpec :=
  let pv0 := lowerStr (trimStr preserveRaw)
  let preserveValue := if pv0.isEmpty then "xmidymid meet".toList else pv0
  let r1 := readTwoWords preserveValue ("xmidymid".toList) ("meet".toList)
  let r2 := if r1.1 = "defer".toList then readTwoWords r1.2.2 r1.1 r1.2.1 else r1
  let align := if r2.1.isEmpty then "xmidymid".toList else r2.1
  if align = "none".toList then
    { none := true, slice := false, align_x := 0, align_y := 0 }
  else
    { none := false
      slice := r2.2.1 == "slice".toList
      align_x :=
        if containsSub align ("xmid".toList) then 1/2
        else if containsSub align ("xmax".toList) then 1
        else 0
      align_y :=
        if containsSub align ("ymid".toList) then 1/2
        else if containsSub align ("ymax".toList) then 1
        else 0 }

/-- `ExtractColorProfileReference` (PaintEngine.cpp lines 1155-1185). -/
def extractColorProfileReference (rawValue : Str) : Option Str :=
  let value := trimStr rawValue
  if value.isEmpty then none
  else
    let lower := lowerStr value
    if lower = "auto".toList ∨ lower = "srgb".toList ∨ lower = "inherit".toList then none
    else if ("url(".toList).isPrefixOf lower then
      match value.findIdx? (· = ')') with
      | none => none
      | some close =>
          if close ≤ 4 then none
          else
            let inside0 := trimStr ((value.drop 4).take (close - 4))
            let inside1 :=
              if ¬inside0.isEmpty ∧ headChar inside0 = '#' then inside0.drop 1 else inside0
            let inside2 :=
              if 2 ≤ inside1.length ∧
                  ((inside1.headD ' ' = '\x27' ∧ inside1.getLast? = some '\x27') ∨
                   (inside1.headD ' ' = '"' ∧ inside1.getLast? = some '"')) then
                (inside1.drop 1).dropLast
              else inside1
            let inside := trimStr inside2
            if inside.isEmpty then none else some inside
    else some value

/-- `static_cast<size_t>(std::max(1.0, std::ceil(q)))`. -/
def natCeilMax1 (q : ℚ) : ℕ := (max 1 ⌈q⌉).toNat

/-- `ApplyColor` (PaintEngine.cpp lines 1596-1606). -/
def applyColorEvs (color : Color) (opacity : ℚ) (stroke : Bool) : List Ev :=
  if ¬color.is_valid ∨ color.is_none then []
  else
    let alpha := cppClamp (color.a * opacity) 0 1
    if stroke then [.setStrokeColor color.r color.g color.b alpha]
    else [.setFillColor color.r color.g color.b alpha]

/-- `AddGeometryPath` (PaintEngine.cpp lines 3550-3620): the path
segments appended to the context's current path. -/
def addGeometryPathSegs (ops : MathOps) (geometry : ShapeGeometry) : List PathSeg :=
  if geometry.type = .kRect then
    if 0 < geometry.rx ∨ 0 < geometry.ry then
      [.addRoundedRect geometry.x geometry.y geometry.width geometry.height
        (max geometry.rx geometry.ry)]
    else [.addRect geometry.x geometry.y geometry.width geometry.height]
  else if geometry.type = .kCircle then
    [.addEllipseInRect (geometry.x - geometry.rx) (geometry.y - geometry.rx)
      (geometry.rx * 2) (geometry.rx * 2)]
  else if geometry.type = .kEllipse then
    [.addEllipseInRect (geometry.x - geometry.rx) (geometry.y - geometry.ry)
      (geometry.rx * 2) (geometry.ry * 2)]
  else if geometry.type = .kLine then
    if 2 ≤ geometry.points.length then
      [ .moveTo (geometry.points.getD 0 (0, 0)).1 (geometry.points.getD 0 (0, 0)).2
      , .lineTo (geometry.points.getD 1 (0, 0)).1 (geometry.points.getD 1 (0, 0)).2 ]
    else []
  else if geometry.type = .kPolygon ∨ geometry.type = .kPolyline then
    match geometry.points with
    | [] => []
    | p0 :: rest =>
        [.moveTo p0.1 p0.2] ++ rest.map (fun p => PathSeg.lineTo p.1 p.2) ++
        (if geometry.type = .kPolygon then [.closeSubpath] else [])
  else if geometry.type = .kPath then
    buildPathFromData ops geometry.path_data
  else []

/-- `ResolveTextFontFamily` (PaintEngine.cpp lines 3622-3648). -/
def resolveTextFontFamily (fontFamily : Str) : Str :=
  let candidates := (fontFamily.splitOn ',').map (fun c0 =>
    let c1 := trimStr c0
    if 2 ≤ c1.length ∧
        ((c1.headD ' ' = '"' ∧ c1.getLast? = some '"') ∨
         (c1.headD ' ' = '\x27' ∧ c1.getLast? = some '\x27')) then
      trimStr ((c1.drop 1).dropLast)
    else c1)
  match candidates.find? (fun c => !c.isEmpty) with
  | none => "Helvetica".toList
  | some candidate =>
      let normalized := lowerStr candidate
      if normalized = "sans-serif".toList then "Helvetica".toList
      else if normalized = "serif".toList then "Times New Roman".toList
      else if normalized = "monospace".toList then "Courier".toList
      else candidate

/-- `DrawText` (PaintEngine.cpp lines 3650-3734), as the calls it issues
(`CTLineDraw` is one `drawTextRun`; the bold-font creation is modelled as
succeeding); the typographic width comes from the `textWidth` oracle. -/
def drawTextEvs (M : ExternalModel) (geometry : ShapeGeometry)
    (style : ResolvedStyle) : List Ev :=
  if geometry.text.isEmpty then []
  else
    let resolvedFontFamily := resolveTextFontFamily style.font_family
    let fontSize := if 0 < style.font_size then style.font_size else 16
    let bold := 600 ≤ style.font_weight
    let fill :=
      if style.fill.is_valid ∧ ¬style.fill.is_none then
        (style.fill.r, style.fill.g, style.fill.b,
         cppClamp (style.fill.a * style.opacity * style.fill_opacity) 0 1)
      else ((0 : ℚ), (0 : ℚ), (0 : ℚ), (1 : ℚ))
    let anchor := lowerStr (trimStr style.text_anchor)
    let lineWidth := M.textWidth geometry.text
    let anchorOffset :=
      if anchor = "middle".toList then -lineWidth * (1/2)
      else if anchor = "end".toList then -lineWidth
      else 0
    [ .saveGState
    , .translateCTM geometry.x geometry.y
    , .scaleCTM 1 (-1)
    , .setTextMatrix affineIdentity
    , .setTextPosition anchorOffset 0
    , .drawTextRun geometry.text resolvedFontFamily fontSize bold
        fill.1 fill.2.1 fill.2.2.1 fill.2.2.2
    , .restoreGState ]

/-- `ParseBusinessRegions` (PaintEngine.cpp lines 3744-3775). -/
def parseBusinessRegions (resultsNode : XmlNode) : List (Str × ℚ) :=
  resultsNode.children.filterMap (fun child =>
    if localName child.name = "region".toList then
      let acc := child.children.foldl
        (fun (acc : Str × Bool × ℚ × Bool) field =>
          let fieldName := localName field.name
          if fieldName = "regionname".toList then
            let nm := trimStr field.text
            (nm, !nm.isEmpty, acc.2.2.1, acc.2.2.2)
          else if fieldName = "regionresult".toList then
            (acc.1, acc.2.1, parseDouble field.text 0, true)
          else acc)
        ([], false, 0, false)
      if acc.2.1 ∧ acc.2.2.2 ∧ 0 < acc.2.2.1 then some (acc.1, acc.2.2.1) else none
    else none)

/-- `MaybeRenderNamespaceBusinessPieChart` (PaintEngine.cpp lines
3777-3873).  The slice loop runs against the backend only, region by
region ending in a consuming `CGContextDrawPath`; the model records the
trigger and its data as the one `legacyPieChart` call, whose path effect
(the context path ends consumed) matches the loop's. -/
def maybePieChartEvs (idMap : List (Str × XmlNode)) (node : XmlNode)
    (style : ResolvedStyle) : List Ev :=
  match assocFind node.attributes ("id".toList) with
  | none => []
  | some idv =>
      if ¬(trimStr idv = "PieParent".toList) then []
      else
        match assocFind idMap ("results".toList) with
        | none => []
        | some resultsNode =>
            let regions := parseBusinessRegions resultsNode
            if regions.length < 2 then []
            else
              let total := (regions.map Prod.snd).sum
              if ¬(0 < total) then []
              else [.legacyPieChart regions style.opacity]

/-- The `ShapeType::kImage` branch of `PaintNode` (PaintEngine.cpp lines
4193-4268): image loading and ICC conversion go through the model's
oracles (the conversion keeps the decoded dimensions); a loaded image is
drawn as one `drawImageHref` call in the flipped local frame. -/
def imageDrawEvs (M : ExternalModel) (colorProfiles : List (Str × Str))
    (node : XmlNode) (inl : List (Str × Str)) (geometry : ShapeGeometry)
    (style : ResolvedStyle) : List Ev :=
  if ¬(0 < geometry.width ∧ 0 < geometry.height ∧ ¬geometry.href.isEmpty) then []
  else
    match M.loadImage geometry.href with
    | none => []
    | some dims =>
        let icc :=
          match readAttrOrStyle node inl ("color-profile".toList) with
          | none => false
          | some cpv =>
              match extractColorProfileReference cpv with
              | none => false
              | some ref =>
                  match assocFind colorProfiles ref with
                  | some href2 => M.iccConvertOk href2
                  | none =>
                      match assocFind colorProfiles (lowerStr ref) with
                      | some href2 => M.iccConvertOk href2
                      | none => false
        let imageWidth : ℚ := dims.1
        let imageHeight : ℚ := dims.2
        let preserve :=
          parsePreserveAspectRatioSpec (attrOrD node ("preserveAspectRatio".toList) [])
        let dr :=
          if ¬preserve.none ∧ 0 < imageWidth ∧ 0 < imageHeight then
            let scaleX := geometry.width / imageWidth
            let scaleY := geometry.height / imageHeight
            let uniformScale := if preserve.slice then max scaleX scaleY else min scaleX scaleY
            let drawWidth := imageWidth * uniformScale
            let drawHeight := imageHeight * uniformScale
            (geometry.x + (geometry.width - drawWidth) * preserve.align_x,
             geometry.y + (geometry.height - drawHeight) * preserve.align_y,
             drawWidth, drawHeight, preserve.slice)
          else (geometry.x, geometry.y, geometry.width, geometry.height, false)
        match dr with
        | (dx, dy, dw, dh, clipToViewport) =>
            [ .saveGState, .setAlpha (cppClamp style.opacity 0 1) ] ++
            (if clipToViewport then
              [ .beginPath
              , .pathSeg (.addRect geometry.x geometry.y geometry.width geometry.height)
              , .clip ]
            else []) ++
            [ .translateCTM dx (dy + dh)
            , .scaleCTM 1 (-1)
            , .drawImageHref geometry.href icc 0 0 dw dh
            , .restoreGState ]

/-- `PaintGradientFill` (PaintEngine.cpp lines 3276-3369): `none` when no
gradient is drawn; otherwise the calls issued (gradient creation is
modelled as succeeding; the path bounding box comes from the oracle). -/
def paintGradientFillEvs (M : ExternalModel)
    (gradients : List (Str × GradientDefinition)) (style : ResolvedStyle)
    (path : List PathSeg) (inheritedOpacity : ℚ) : Option (List Ev) :=
  match extractPaintURLId style.fill_paint with
  | none => none
  | some gradientID =>
      match assocFind gradients gradientID with
      | none => none
      | some gradientDef =>
          if gradientDef.stops.isEmpty then none
          else
            let locations := gradientDef.stops.map (fun s => cppClamp s.offset 0 1)
            let components := gradientDef.stops.flatMap (fun s =>
              let color := if s.color.is_valid then s.color else parseColor ("black".toList)
              [color.r, color.g, color.b, cppClamp (color.a * s.opacity * inheritedOpacity) 0 1])
            let bbox := M.pathBoundingBox path
            let resolveX := fun (v : ℚ) =>
              if gradientDef.user_space_units then v else bbox.1 + v * bbox.2.2.1
            let resolveY := fun (v : ℚ) =>
              if gradientDef.user_space_units then v else bbox.2.1 + v * bbox.2.2.2
            some (
              [ .saveGState, .addPath path, .clip ] ++
              (if ¬(gradientDef.transform = affineIdentity) then
                [.concatCTM gradientDef.transform]
              else []) ++
              (if gradientDef.type = .kLinear then
                [ .drawLinearGradient locations components
                    (resolveX gradientDef.x1) (resolveY gradientDef.y1)
                    (resolveX gradientDef.x2) (resolveY gradientDef.y2) ]
              else
                let radius :=
                  if gradientDef.user_space_units then gradientDef.r
                  else gradientDef.r * max bbox.2.2.1 bbox.2.2.2
                [ .drawRadialGradient locations components
                    (resolveX gradientDef.fx) (resolveY gradientDef.fy)
                    (resolveX gradientDef.cx) (resolveY gradientDef.cy) radius ]) ++
              [ .restoreGState ])

/-! ## The filter-primitive executor (PaintEngine.cpp lines 2977-3180) -/

/-- The `resolve_input` lambda of `ExecuteBasicFilterPrimitives`
(PaintEngine.cpp lines 3003-3010). -/
def resolveFilterInput (surfaces : List (Str × PixelSurface)) (lastKey key : Str) :
    Option PixelSurface :=
  match assocFind surfaces key with
  | some s => some s
  | none => assocFind surfaces lastKey

/-- The `in`/`in2`-key computation of a primitive: the trimmed attribute,
or the default, with an empty result falling back to the default. -/
def filterInKey (primitive : XmlNode) (key : Str) (dflt : Str) : Str :=
  let raw := trimStr (attrOrD primitive key dflt)
  if raw.isEmpty then dflt else raw

/-- One primitive step of `ExecuteBasicFilterPrimitives` (the dispatch on
the primitive's local name, PaintEngine.cpp lines 3012-3161): the output
surface, or `none` where the C++ returns `std::nullopt`.  The final
`else` keeps rendering moving for unrecognized primitives by passing the
last result through. -/
def executeFilterStep (M : ExternalModel) (source : PixelSurface)
    (filterBounds : PixelBounds) (surfaces : List (Str × PixelSurface))
    (lastKey : Str) (primitive : XmlNode) : Option PixelSurface :=
  let primitiveName := localName primitive.name
  let inOf := fun (dflt : Str) =>
    resolveFilterInput surfaces lastKey (filterInKey primitive ("in".toList) dflt)
  let in2Of := fun (dflt : Str) =>
    resolveFilterInput surfaces lastKey (filterInKey primitive ("in2".toList) dflt)
  if primitiveName = "feflood".toList then
    some (M.kernels.makeFloodSurface source.width source.height primitive filterBounds)
  else if primitiveName = "fegaussianblur".toList then
    let stddevValues := parseNumberList (attrOrD primitive ("stdDeviation".toList) [])
    let stdX := if stddevValues.isEmpty then 0 else max 0 (stddevValues.getD 0 0)
    let stdY := if 1 < stddevValues.length then max 0 (stddevValues.getD 1 0) else stdX
    match inOf ("SourceGraphic".toList) with
    | none => none
    | some inS => some (M.kernels.applyGaussianBlurFilter inS stdX stdY)
  else if primitiveName = "feoffset".toList then
    match inOf ("SourceGraphic".toList) with
    | none => none
    | some inS =>
        let vw : ℚ := (max 1 inS.width : ℕ)
        let vh : ℚ := (max 1 inS.height : ℕ)
        let dx := parseSVGLengthAttr M.ops primitive.attributes ("dx".toList) 0 .x vw vh
        let dy := parseSVGLengthAttr M.ops primitive.attributes ("dy".toList) 0 .y vw vh
        some (M.kernels.applyOffsetFilter inS dx dy)
  else if primitiveName = "feimage".toList then
    some (M.kernels.renderImageFilterPrimitive primitive source)
  else if primitiveName = "fecolormatrix".toList then
    (inOf ("SourceGraphic".toList)).map (fun inS => M.kernels.applyColorMatrix inS primitive)
  else if primitiveName = "fecomponenttransfer".toList then
    (inOf ("SourceGraphic".toList)).map
      (fun inS => M.kernels.applyComponentTransferFilter inS primitive)
  else if primitiveName = "feconvolvematrix".toList then
    (inOf ("SourceGraphic".toList)).map
      (fun inS => M.kernels.applyConvolveMatrixFilter inS primitive)
  else if primitiveName = "fecomposite".toList then
    match inOf ("SourceGraphic".toList), in2Of ("SourceGraphic".toList) with
    | some inS, some in2S =>
        let op := lowerStr (trimStr (attrOrD primitive ("operator".toList) ("over".toList)))
        let parseAttr := fun (key : Str) (fallback : ℚ) =>
          match assocFind primitive.attributes key with
          | none => fallback
          | some v => parseDouble v fallback
        some (compositeSurfaces inS in2S op
          (parseAttr ("k1".toList) 0) (parseAttr ("k2".toList) 0)
          (parseAttr ("k3".toList) 0) (parseAttr ("k4".toList) 0))
    | _, _ => none
  else if primitiveName = "feblend".toList then
    match inOf ("SourceGraphic".toList), in2Of ("SourceGraphic".toList) with
    | some inS, some in2S =>
        let mode := lowerStr (trimStr (attrOrD primitive ("mode".toList) ("normal".toList)))
        some (M.kernels.blendSurfaces inS in2S mode)
    | _, _ => none
  else if primitiveName = "femerge".toList then
    some (primitive.children.foldl
      (fun output child =>
        if ¬(localName child.name = "femergenode".toList) then output
        else
          match resolveFilterInput surfaces lastKey (filterInKey child ("in".toList) lastKey) with
          | none => output
          | some mergeSurface => compositeSurfaces mergeSurface output ("over".toList) 0 0 0 0)
      (makeTransparentSurface source.width source.height))
  else if primitiveName = "femorphology".toList then
    (inOf ("SourceGraphic".toList)).map (fun inS => M.kernels.applyMorphologyFilter inS primitive)
  else if primitiveName = "fedisplacementmap".toList then
    match inOf ("SourceGraphic".toList), in2Of ("SourceGraphic".toList) with
    | some inS, some in2S => some (M.kernels.applyDisplacementMapFilter inS in2S primitive)
    | _, _ => none
  else if primitiveName = "fetile".toList then
    match resolveFilterInput surfaces lastKey (filterInKey primitive ("in".toList) lastKey) with
    | none => none
    | some inS => some (M.kernels.applyTileFilter inS primitive)
  else if primitiveName = "feturbulence".toList then
    some (applyTurbulenceFilter source primitive)
  else if primitiveName = "fediffuselighting".toList then
    (inOf ("SourceAlpha".toList)).map (fun inS => M.kernels.applyLightingFilter inS primitive false)
  else if primitiveName = "fespecularlighting".toList then
    (inOf ("SourceAlpha".toList)).map (fun inS => M.kernels.applyLightingFilter inS primitive true)
  else
    some (match resolveFilterInput surfaces lastKey lastKey with
          | some fallback => fallback
          | none => source)

/-- The result-key bookkeeping of one primitive (PaintEngine.cpp lines
3163-3172): the trimmed `result` attribute, or `__result_<n>` with the
incremented unnamed counter. -/
def filterResultKey (primitive : XmlNode) (unnamedIndex : ℕ) : Str × ℕ :=
  let rk0 :=
    match assocFind primitive.attributes ("result".toList) with
    | some rv => trimStr rv
    | none => []
  if rk0.isEmpty then (("__result_".toList) ++ natToStr (unnamedIndex + 1), unnamedIndex + 1)
  else (rk0, unnamedIndex)

/-- The primitive loop of `ExecuteBasicFilterPrimitives`. -/
def executeFilterLoop (M : ExternalModel) (source : PixelSurface)
    (filterBounds : PixelBounds) :
    List XmlNode → List (Str × PixelSurface) → Str → ℕ →
    Option (List (Str × PixelSurface) × Str)
  | [], surfaces, lastKey, _ => some (surfaces, lastKey)
  | primitive :: rest, surfaces, lastKey, unnamedIndex =>
      match executeFilterStep M source filterBounds surfaces lastKey primitive with
      | none => none
      | some output =>
          let rk := filterResultKey primitive unnamedIndex
          executeFilterLoop M source filterBounds rest (assocSet surfaces rk.1 output) rk.1 rk.2

/-- `ExecuteBasicFilterPrimitives` (PaintEngine.cpp lines 2977-3180).
Its `error` parameter is passed through to `RenderImageFilterPrimitive`,
which never writes it (its nested render uses a discarded local error),
so the executor leaves the caller's error untouched. -/
def executeBasicFilterPrimitives (M : ExternalModel) (filterNode : XmlNode)
    (sourceSurface : PixelSurface) : Option PixelSurface :=
  let surfaces0 :=
    assocSet (assocSet [] ("SourceGraphic".toList) sourceSurface)
      ("SourceAlpha".toList) (sourceAlphaOf sourceSurface)
  let filterBounds := computeNonTransparentBounds sourceSurface
  match executeFilterLoop M sourceSurface filterBounds filterNode.children surfaces0
      ("SourceGraphic".toList) 0 with
  | none => none
  | some fin => assocFind fin.1 fin.2

/-! ## The paint traversal (PaintEngine.cpp `PaintNode` and its
collaborators) -/

/-- The tile-stamping loop counter: the number of iterations of
`for (v = start; v < stop; v += step)` with `step > 0`. -/
def tileStepCount (start stop step : ℚ) : ℕ :=
  if step ≤ 0 then 0 else (max 0 ⌈(stop - start) / step⌉).toNat

/-- The sibling loop of `PaintNode` (PaintEngine.cpp lines 4345-4363 and
the analogous loops of the `svg`/`g`/pattern branches): each child is
painted in turn, and a state whose error is not `kNone` after a child
stops the loop — later siblings are not visited. -/
def paintChildrenLoop (paint : XmlNode → PaintSt → PaintSt × List Ev) :
    List XmlNode → PaintSt → PaintSt × List Ev
  | [], st => (st, [])
  | c :: cs, st =>
      let r := paint c st
      if ¬(r.1.err.code = .kNone) then (r.1, r.2)
      else
        let rr := paintChildrenLoop paint cs r.1
        (rr.1, r.2 ++ rr.2)
